import Mathlib

/-!
Verification of the extraction-and-normalization subsystem and the data
quality gate validator of the abc-mutual-fund repository.

The Python sources are shallowly embedded: pandas tables become lists of
rows, numeric cells become `Option (ℚ ⊕ String)` (missing / parsed number /
non-null unparseable text), and each validator gate becomes a pure function
from tables to a gate result (pass flag, critical issues, warnings).
External library behaviour (pandas `to_numeric`/`to_datetime`, dateutil)
is embedded at the data level or modelled on the input shapes the code
actually feeds it, as documented at each definition.
-/

-- Rational arithmetic is `@[irreducible]` in Batteries; make it reducible so
-- that concrete gate computations can be settled by kernel evaluation.
set_option allowUnsafeReducibility true
attribute [semireducible] Rat.add Rat.mul Rat.inv Rat.sub

namespace MF

/-! ## Character and string primitives (Python `str` semantics, ASCII data) -/

/-- Python `\s` on the ASCII range: space, tab, newline, carriage return,
vertical tab, form feed. -/
def isPySpace (c : Char) : Bool :=
  c = ' ' || c = '\t' || c = '\n' || c = '\r' || c.val = 11 || c.val = 12

def isDigitChar (c : Char) : Bool := '0' ≤ c && c ≤ '9'

def isUpperAZ (c : Char) : Bool := 'A' ≤ c && c ≤ 'Z'

def isAsciiAlpha (c : Char) : Bool := ('A' ≤ c && c ≤ 'Z') || ('a' ≤ c && c ≤ 'z')

/-- Python `str.strip()` on both ends. -/
def pyStrip (l : List Char) : List Char :=
  ((l.dropWhile isPySpace).reverse.dropWhile isPySpace).reverse

def strStrip (s : String) : String := String.mk (pyStrip s.data)

def strUpper (s : String) : String := String.mk (s.data.map Char.toUpper)

def strLower (s : String) : String := String.mk (s.data.map Char.toLower)

/-- Whether `pat` occurs as a contiguous sublist of `l` (Python `in`). -/
def subOccurs (pat : List Char) : List Char → Bool
  | [] => pat.isEmpty
  | l@(_ :: rest) => pat.isPrefixOf l || subOccurs pat rest

/-- Python `pat in s` substring test. -/
def strContains (s pat : String) : Bool := subOccurs pat.data s.data

/-- Case-insensitive substring test (`str.contains(..., case=False)`). -/
def strContainsCI (s pat : String) : Bool := strContains (strLower s) (strLower pat)

/-! ## ISIN validators -/

/-- The regex `^IN[A-Z0-9]{10}$` from `src/utils.py` (`ISIN_RE`). -/
def matchesIsinReIN (s : String) : Bool :=
  match s.data with
  | c1 :: c2 :: rest =>
      c1 = 'I' && c2 = 'N' && rest.length = 10 &&
      rest.all (fun c => isUpperAZ c || isDigitChar c)
  | _ => false

/-- `src/utils.py` `is_valid_isin`: `none` stands for Python `None`/NaN input. -/
def is_valid_isin (isin : Option String) : Bool :=
  match isin with
  | none => false
  | some s =>
      let t := strUpper (strStrip s)
      matchesIsinReIN t && t.length = 12

/-- `extract.py` (and the per-AMC extractors') `is_valid_isin`: length 12 and
the first two characters alphabetic. -/
def extract_is_valid_isin (isin : Option String) : Bool :=
  match isin with
  | none => false
  | some s =>
      let t := strUpper (strStrip s)
      t.length = 12 && (t.data.take 2).all isAsciiAlpha

/-- The claim/spec-side ISIN pattern `^[A-Z]{2}[A-Z0-9]{9}[0-9]$`, written
from the spec's words for comparison with the code's validators. -/
def specIsinPattern (s : String) : Bool :=
  match s.data with
  | c1 :: c2 :: rest =>
      isUpperAZ c1 && isUpperAZ c2 && rest.length = 10 &&
      (rest.take 9).all (fun c => isUpperAZ c || isDigitChar c) &&
      (rest.drop 9).all isDigitChar
  | _ => false

/-! ## `clean_text` (src/utils.py) -/

/-- Worker for `replaceSub`; `fuel` bounds the number of steps so the
recursion is structural (every call site passes enough fuel). -/
def replaceSubGo (pat rep : List Char) : Nat → List Char → List Char
  | 0, l => l
  | _ + 1, [] => []
  | fuel + 1, c :: rest =>
      if !pat.isEmpty && pat.isPrefixOf (c :: rest) then
        rep ++ replaceSubGo pat rep fuel ((c :: rest).drop pat.length)
      else c :: replaceSubGo pat rep fuel rest

/-- Replace every (leftmost, non-overlapping) occurrence of `pat` by `rep`
(Python `str.replace`). -/
def replaceSub (pat rep l : List Char) : List Char :=
  replaceSubGo pat rep l.length l

/-- Collapse each run of whitespace to a single space (`re.sub(r"\s+", " ", s)`). -/
def collapseWs : List Char → List Char
  | [] => []
  | [c] => [if isPySpace c then ' ' else c]
  | c1 :: c2 :: rest =>
      if isPySpace c1 && isPySpace c2 then collapseWs (c2 :: rest)
      else (if isPySpace c1 then ' ' else c1) :: collapseWs (c2 :: rest)

/-- `clean_text` from src/utils.py restricted to string input (the
None/NaN branch returns `""` and is covered by callers passing `Option`). -/
def cleanText (s : String) : String :=
  let l := replaceSub "_x000D_".data " ".data s.data
  let l := replaceSub "\r\n".data " ".data l
  let l := replaceSub "\n".data " ".data l
  let l := replaceSub "\r".data " ".data l
  String.mk (pyStrip (collapseWs l))

/-! ## Rating standardization

The rating configuration lives in `config/rating_map.yml`, which is not part
of the sources under `src/`. `ratingCfg` below is therefore modelled from the
spec. The two standardizer functions themselves (`extract_rating_from_text`
in src/rating_standardizer.py and `normalize_rating` in src/enrich.py) are
translated from the source. -/

structure RatingCfg where
  sovereignTokens : List String
  map : List (String × String)
  order : List String

/-- Modelled from the spec: `config/rating_map.yml` is absent from the
sources. Sovereign-indicator tokens ("GOI", "Government", lowercase as the
code compares them against lowercased text), the alias table from raw grade
spellings to canonical grades, and the total order over grades (best first,
as printed by Gate 9's `expected_order` plus its junk list) follow the
spec's §4.3 and §4.6 wording. -/
def ratingCfg : RatingCfg where
  sovereignTokens := ["goi", "government"]
  map :=
    [("aaa", "AAA"), ("aa+", "AA+"), ("aa", "AA"), ("aa-", "AA-"),
     ("a+", "A+"), ("a", "A"), ("a-", "A-"),
     ("bbb+", "BBB+"), ("bbb", "BBB"), ("bbb-", "BBB-"),
     ("bb+", "BB+"), ("bb", "BB"), ("bb-", "BB-"),
     ("b+", "B+"), ("b", "B"), ("b-", "B-"), ("c", "C"), ("d", "D"),
     ("a1+", "A1+"), ("a1", "A1"), ("a2+", "A2+"), ("a2", "A2"), ("a3", "A3"),
     ("sov", "SOVEREIGN"), ("sovereign", "SOVEREIGN")]
  order :=
    ["SOVEREIGN", "AAA", "AA+", "AA", "AA-", "A+", "A", "A-",
     "BBB+", "BBB", "BBB-", "BB+", "BB", "BB-", "B+", "B", "B-", "C", "D",
     "A1+", "A1", "A2+", "A2", "A3"]

/-- Dict lookup with default (`dict.get(key, default)`). -/
def lookupD (m : List (String × String)) (key dflt : String) : String :=
  match m.find? (fun p => p.1 = key) with
  | some p => p.2
  | none => dflt

/-- `re.search(r'^\d+\.\d+', s)`: the string starts with digits, a dot,
and at least one digit. -/
def startsWithDecimal (s : String) : Bool :=
  match s.data.dropWhile isDigitChar, s.data.takeWhile isDigitChar with
  | '.' :: c :: _, _ :: _ => isDigitChar c
  | _, _ => false

/-- `re.sub(f'^{agency}\\s*-\\s*', '', s)`: strip an agency prefix followed
by a (space-padded) dash. Returns `s` unchanged when the pattern misses. -/
def stripAgencyDash (agency : String) (s : String) : String :=
  if agency.data.isPrefixOf s.data then
    let r := (s.data.drop agency.length).dropWhile isPySpace
    match r with
    | '-' :: r2 => String.mk (r2.dropWhile isPySpace)
    | _ => s
  else s

/-- `re.sub(f'^{agency}\\s+', '', s)`: strip an agency prefix followed by at
least one whitespace character. -/
def stripAgencyWs (agency : String) (s : String) : String :=
  if agency.data.isPrefixOf s.data then
    match s.data.drop agency.length with
    | c :: rest => if isPySpace c then String.mk (rest.dropWhile isPySpace) else s
    | [] => s
  else s

/-- `re.sub(f'^\\[{agency}\\]', '', s)`: strip a bracketed agency prefix. -/
def stripAgencyBracket (agency : String) (s : String) : String :=
  let pat := "[" ++ agency ++ "]"
  if pat.data.isPrefixOf s.data then String.mk (s.data.drop pat.length) else s

def ratingAgencies : List String :=
  ["crisil", "icra", "care", "ind-ra", "ind", "brickwork", "bwr", "acuite", "fitch"]

/-- `re.sub(r"\s*\([^)]*\)\s*$", "", s)`: remove a trailing parenthetical
group (whose content has no `)`) together with surrounding whitespace. -/
def stripTrailingParen (s : String) : String :=
  let rev := s.data.reverse
  let rev1 := rev.dropWhile isPySpace
  match rev1 with
  | ')' :: rev2 =>
      let seg := rev2.takeWhile (fun c => c ≠ ')')
      let segOrig := seg.reverse
      if segOrig.any (fun c => c = '(') then
        let rest2 := rev2.drop seg.length
        let beforeParen := segOrig.takeWhile (fun c => c ≠ '(')
        String.mk (rest2.reverse ++ (beforeParen.reverse.dropWhile isPySpace).reverse)
      else s
  | _ => s

/-- Index of the first occurrence of `c`, if any. -/
def firstIdx (c : Char) : List Char → Option Nat
  | [] => none
  | x :: rest => if x = c then some 0 else (firstIdx c rest).map (· + 1)

/-- `re.sub(r"\s*/.*$", "", s)`: truncate at the first `/` together with the
whitespace immediately before it. -/
def stripSlashSuffix (s : String) : String :=
  match firstIdx '/' s.data with
  | none => s
  | some i => String.mk (((s.data.take i).reverse.dropWhile isPySpace).reverse)

/-- `extract_rating_from_text` from src/rating_standardizer.py. The input is
the raw rating cell (`none` for Python None/NaN/non-string). The config's
optional `invalid_patterns` key is absent in the modelled configuration. -/
def extract_rating_from_text (ratingText : Option String) (cfg : RatingCfg) : Option String :=
  match ratingText with
  | none => none
  | some raw =>
      let rating_text := strStrip raw
      let rating_lower := strLower rating_text
      if cfg.sovereignTokens.any (fun t => strContains rating_lower t) then some "SOVEREIGN"
      else if startsWithDecimal rating_lower then none
      else
        let cleaned := ratingAgencies.foldl
          (fun s a => stripAgencyBracket a (stripAgencyWs a (stripAgencyDash a s)))
          (strLower rating_text)
        let cleaned := strStrip (stripSlashSuffix (stripTrailingParen cleaned))
        match cfg.map.find? (fun p => cleaned = strLower p.1) with
        | some p => some p.2
        | none =>
            match cfg.map.find? (fun p => (strLower p.1).data.isPrefixOf cleaned.data) with
            | some p => some p.2
            | none => none

/-- The alternatives of `normalize_rating`'s grade regex, in source order. -/
def gradeAlts : List String :=
  ["sov", "sovereign", "aaa", "aa+", "aa-", "aa", "a+", "a-", "a",
   "bbb+", "bbb-", "bbb", "a1+", "a1", "a2+", "a2", "a3"]

/-- Leftmost match of the grade alternation (first position, then first
alternative), as Python `re.search` resolves it. -/
def findGradeAlt : List Char → Option String
  | [] => none
  | l@(_ :: rest) =>
      match gradeAlts.find? (fun a => a.data.isPrefixOf l) with
      | some a => some a
      | none => findGradeAlt rest

/-- The separator class of `re.split(r"[ /|,]+", s)`. -/
def isRatingSep (c : Char) : Bool := c = ' ' || c = '/' || c = '|' || c = ','

/-- Tokenizer for `re.split(r"[ /|,]+", r)` followed by the code's
`if p` filter: maximal runs of non-separator characters. `cur` holds the
current token reversed. -/
def splitSepsGo (cur : List Char) : List Char → List String
  | [] => if cur.isEmpty then [] else [String.mk cur.reverse]
  | c :: rest =>
      if isRatingSep c then
        if cur.isEmpty then splitSepsGo [] rest
        else String.mk cur.reverse :: splitSepsGo [] rest
      else splitSepsGo (c :: cur) rest

/-- Split on runs of the separators of `re.split(r"[ /|,]+", s)`, dropping
empty parts (the code filters `if p`). -/
def splitSeps (l : List Char) : List String := splitSepsGo [] l

/-- Rank of a grade in the configured order; a missing grade ranks
`order.length + 1` (the code's `except` branch). -/
def gradeRank (order : List String) (g : String) : Nat :=
  match order.indexOf? g with
  | some i => i
  | none => order.length + 1

/-- Stable insertion into a list sorted ascending by rank: the inserted
element precedes later elements of equal rank, matching Python's stable
`sorted`. -/
def insertByRank (order : List String) (x : String) : List String → List String
  | [] => [x]
  | y :: ys =>
      if gradeRank order x ≤ gradeRank order y then x :: y :: ys
      else y :: insertByRank order x ys

/-- Stable sort ascending by rank (Python `sorted(grades, key=rank)`). -/
def sortByRank (order : List String) (l : List String) : List String :=
  l.foldr (insertByRank order) []

/-- `normalize_rating` from src/enrich.py. -/
def normalize_rating (ratingRaw name : String) (cfg : RatingCfg) : String :=
  let n := strLower (cleanText name)
  let r := strLower (cleanText ratingRaw)
  if cfg.sovereignTokens.any (fun t => strContains n t) then "SOVEREIGN"
  else
    match findGradeAlt r.data with
    | some key => lookupD cfg.map key (strUpper key)
    | none =>
        let parts := splitSeps r.data
        let grades := parts.map (fun p => lookupD cfg.map (strLower p) (strUpper p))
        match grades with
        | [] => ""
        | _ => (sortByRank cfg.order grades).getLastD ""

/-- The spec-side "worst grade" selection for comparison: an element of
maximal rank (ties resolved to the last). -/
def selectWorst (order : List String) : List String → Option String
  | [] => none
  | g :: gs =>
      match selectWorst order gs with
      | none => some g
      | some w => if gradeRank order g > gradeRank order w then some g else some w

/-! ## Numeric parsing (`parse_numeric`, src/utils.py) -/

/-- Value of a digit character. -/
def digitVal (c : Char) : Nat := c.toNat - '0'.toNat

def digitsToNat (l : List Char) : Nat := l.foldl (fun n c => 10 * n + digitVal c) 0

/-- Modelled from CPython `float(s)` on plain decimal forms: optional sign,
then `d+[.d*]`, `.d+` or `d+.`, with an optional `e`/`E` exponent. The
special spellings `inf`/`nan` and underscore separators accepted by CPython
are not modelled (none appear in this data). Returns an exact rational. -/
def parseFloatStr (s : String) : Option ℚ :=
  let l := s.data
  let (sign, l) : ℚ × List Char :=
    match l with
    | '-' :: rest => (-1, rest)
    | '+' :: rest => (1, rest)
    | _ => (1, l)
  let intPart := l.takeWhile isDigitChar
  let l2 := l.dropWhile isDigitChar
  let (fracPart, l3) : List Char × List Char :=
    match l2 with
    | '.' :: rest => (rest.takeWhile isDigitChar, rest.dropWhile isDigitChar)
    | _ => ([], l2)
  -- at least one digit must appear, and a '.' must be present if intPart is empty
  if intPart.isEmpty && fracPart.isEmpty then none
  else
    let mantissa : ℚ :=
      sign * (digitsToNat intPart + (digitsToNat fracPart : ℚ) / (10 ^ fracPart.length))
    match l3 with
    | [] => some mantissa
    | e :: rest =>
        if e = 'e' ∨ e = 'E' then
          let (esign, rest) : Bool × List Char :=
            match rest with
            | '-' :: r => (true, r)
            | '+' :: r => (false, r)
            | _ => (false, rest)
          let eDigits := rest.takeWhile isDigitChar
          if eDigits.isEmpty ∨ ¬(rest.dropWhile isDigitChar).isEmpty then none
          else
            let ex := digitsToNat eDigits
            some (if esign then mantissa / (10 ^ ex) else mantissa * (10 ^ ex))
        else none

/-- `parse_numeric` from src/utils.py: `none` input stands for Python
None/NaN. Strips thousands separators, converts accounting parentheses to a
leading minus, strips, then attempts float conversion; failures yield null. -/
def parse_numeric (x : Option String) : Option ℚ :=
  match x with
  | none => none
  | some v =>
      let s := replaceSub ")".data [] (replaceSub "(".data "-".data (replaceSub ",".data [] v.data))
      parseFloatStr (String.mk (pyStrip s))

/-! ## Cell model for extracted tables

`pd.read_csv` and `pd.to_numeric(errors='coerce')` are external library
calls; their outcome on each cell is embedded as data: a numeric cell is
`none` (missing/NaN), `.inl q` (a cell that parses to the number `q`) or
`.inr s` (a non-null cell with unparseable text `s`). Dates are embedded the
same way with `ℤ` as a day ordinal so that `pd.Timestamp` comparison and
day arithmetic are integer comparison and addition. -/

abbrev NumCell := Option (ℚ ⊕ String)

abbrev DateCell := Option (ℤ ⊕ String)

/-- `pd.to_numeric(cell, errors='coerce')`. -/
def toNumeric (c : NumCell) : Option ℚ :=
  c.bind fun v => match v with | .inl q => some q | .inr _ => none

/-- `pd.to_numeric(col, errors='coerce')` applied to a column. -/
def toNumericCol (cells : List NumCell) : List (Option ℚ) := cells.map toNumeric

/-- `pd.to_numeric(col, errors='coerce').dropna()`. -/
def parsedNums (cells : List NumCell) : List ℚ := cells.filterMap toNumeric

/-! ## Unit/scale correction (src/extractors/extract_abslf.py and
extract_icici.py) -/

/-- Maximum of a list of rationals (`Series.max()` of a nonempty series). -/
def listMax : List ℚ → Option ℚ
  | [] => none
  | q :: rest =>
      match listMax rest with
      | none => some q
      | some m => some (max q m)

/-- `to_numeric(col).dropna().head(3)`: the first three parseable values. -/
def sampleHead3 (col : List (Option ℚ)) : List ℚ := (col.filterMap id).take 3

/-- The ABSLF decimal-format correction step: if the first three non-null
values exist and their maximum is `< 1`, multiply the whole (coerced) column
by 100; otherwise leave it as coerced. Applied to both the `% to Net Assets`
and `Yield` columns of that file. -/
def abslfRescale (col : List (Option ℚ)) : List (Option ℚ) :=
  match listMax (sampleHead3 col) with
  | some m => if m < 1 then col.map (Option.map (· * 100)) else col
  | none => col

/-- ABSLF `% to NAV` / `Yield` column values as emitted by
`extract_abslf_data`. -/
def abslfColumnValues (cells : List NumCell) : List (Option ℚ) :=
  abslfRescale (toNumericCol cells)

/-- The ICICI `% to Nav` correction step: same sampling, but the threshold
test is `max <= 1`. -/
def iciciRescale (col : List (Option ℚ)) : List (Option ℚ) :=
  match listMax (sampleHead3 col) with
  | some m => if m ≤ 1 then col.map (Option.map (· * 100)) else col
  | none => col

/-- ICICI `% to Nav` column values as emitted by `extract_icici_data`. -/
def iciciNavValues (cells : List NumCell) : List (Option ℚ) :=
  iciciRescale (toNumericCol cells)

/-- ICICI `Yield of the instrument` column values: coerced with no scale
correction step at all. -/
def iciciYieldValues (cells : List NumCell) : List (Option ℚ) :=
  toNumericCol cells

/-- The generic extractor's canonical numeric output
(`pd.to_numeric(col, errors='coerce').fillna(0)`, extract.py line 213 and
enhanced_extractor.py lines 145-149). -/
def extractNumericOutput (cells : List NumCell) : List ℚ :=
  cells.map (fun c => (toNumeric c).getD 0)

/-! ## Maturity-date parsing (`parse_date_from_text`, src/utils.py) -/

structure DateYMD where
  year : Nat
  month : Nat
  day : Nat
  deriving DecidableEq, Repr

def isLeapYear (y : Nat) : Bool := y % 4 = 0 && (y % 100 ≠ 0 || y % 400 = 0)

def daysInMonth (y m : Nat) : Nat :=
  if m = 2 then (if isLeapYear y then 29 else 28)
  else if m = 4 ∨ m = 6 ∨ m = 9 ∨ m = 11 then 30
  else 31

/-- `datetime.datetime(y, m, d)`: `some` when the components form a valid
proleptic-Gregorian date in Python's supported year range, else `none`
(the constructor raises, which the code catches). -/
def datetimeMk (y m d : Nat) : Option DateYMD :=
  if 1 ≤ y ∧ y ≤ 9999 ∧ 1 ≤ m ∧ m ≤ 12 ∧ 1 ≤ d ∧ d ≤ daysInMonth y m then
    some ⟨y, m, d⟩
  else none

/-- Word characters for regex `\b` boundaries: `[A-Za-z0-9_]`. -/
def isWordChar (c : Char) : Bool :=
  isAsciiAlpha c || isDigitChar c || c = '_'

/-- `\b` boundary test against an adjacent character (`none` = text edge). -/
def boundaryOk : Option Char → Bool
  | some c => !isWordChar c
  | none => true

/-- Case-insensitive literal prefix test. -/
def ciPrefix (pat : String) (l : List Char) : Bool :=
  (pat.data.map Char.toLower).isPrefixOf (l.map Char.toLower)

/-- Leftmost match of `MAT\s+(\d{6})` (case-insensitive): returns the six
captured digit characters. -/
def findMat6 : List Char → Option (List Char)
  | [] => none
  | l@(_ :: rest) =>
      (if ciPrefix "mat" l then
        let r1 := l.drop 3
        let spaces := r1.takeWhile isPySpace
        let r2 := r1.dropWhile isPySpace
        let digits := r2.takeWhile isDigitChar
        if !spaces.isEmpty && digits.length ≥ 6 then some (digits.take 6) else none
      else none).orElse (fun _ => findMat6 rest)

/-- The `MAT DDMMYY` branch: decode day/month/two-digit-year, mapping
`YY < 50` to `20YY` and `YY ≥ 50` to `19YY`, validated by `datetime`. -/
def matBranch (l : List Char) : Option DateYMD :=
  match findMat6 l with
  | none => none
  | some ds =>
      let day := digitsToNat (ds.take 2)
      let month := digitsToNat ((ds.drop 2).take 2)
      let yy := digitsToNat (ds.drop 4)
      let year := if yy < 50 then yy + 2000 else yy + 1900
      datetimeMk year month day

def monthAlts : List (String × Nat) :=
  [("Jan", 1), ("Feb", 2), ("Mar", 3), ("Apr", 4), ("May", 5), ("Jun", 6),
   ("Jul", 7), ("Aug", 8), ("Sep", 9), ("Sept", 9), ("Oct", 10), ("Nov", 11), ("Dec", 12)]

/-- Number of a month-name token (full or abbreviated, case-insensitive),
as `dateutil` resolves the names produced by the date regexes. -/
def monthFromName (tok : List Char) : Option Nat :=
  (monthAlts.find? (fun p => ciPrefix p.1 tok &&
      (tok.drop p.1.length).all (fun c => isAsciiAlpha c))).map (·.2)

/-- Strip an ordinal suffix (`st`/`nd`/`rd`/`th`, case-insensitive) from a
day token. -/
def stripOrdinal (tok : List Char) : List Char :=
  let digits := tok.takeWhile isDigitChar
  let rest := tok.dropWhile isDigitChar
  if rest.map Char.toLower = "st".data ∨ rest.map Char.toLower = "nd".data ∨
     rest.map Char.toLower = "rd".data ∨ rest.map Char.toLower = "th".data then digits
  else tok

/-- `dateutil`'s two-digit-year completion relative to the current century
(window around 2025: `YY ≤ 74` → `20YY`, else `19YY`). -/
def dateutilYear (y : Nat) : Nat :=
  if y < 100 then (if y ≤ 74 then y + 2000 else y + 1900) else y

/-- Modelled from the external `dateutil.parser.parse(cand, dayfirst=True,
fuzzy=True)` on the candidate shapes the surrounding regexes produce:
day/month/year triples separated by `-`, `/`, `,` or spaces, the month
either numeric or a month name, the day optionally carrying an ordinal
suffix. Day-first is preferred; like `dateutil`, an impossible day-first
numeric reading falls back to month-first. Anything else is conservatively
unparseable (`none` stands for the library raising `ParserError`, which
every caller catches). -/
def dparserParse (cand : List Char) : Option DateYMD :=
  let toks := (splitSepsGoDate [] cand).filter (fun t => !t.isEmpty)
  match toks with
  | [t1, t2, t3] =>
      let dayTok := stripOrdinal t1
      if dayTok.all isDigitChar && !dayTok.isEmpty && dayTok.length ≤ 2 &&
         t3.all isDigitChar && 2 ≤ t3.length && t3.length ≤ 4 then
        let d := digitsToNat dayTok
        let y := dateutilYear (digitsToNat t3)
        if t2.all isDigitChar && !t2.isEmpty && t2.length ≤ 2 then
          let m := digitsToNat t2
          match datetimeMk y m d with
          | some dt => some dt
          | none => datetimeMk y d m
        else
          match monthFromName t2 with
          | some m => datetimeMk y m d
          | none => none
      else none
  | _ => none
where
  /-- Tokenize on `-`, `/`, `,` and whitespace. -/
  splitSepsGoDate (cur : List Char) : List Char → List (List Char)
    | [] => if cur.isEmpty then [] else [cur.reverse]
    | c :: rest =>
        if c = '-' || c = '/' || c = ',' || isPySpace c then
          if cur.isEmpty then splitSepsGoDate [] rest
          else cur.reverse :: splitSepsGoDate [] rest
        else splitSepsGoDate (c :: cur) rest

/-- Leftmost match of the tagged-maturity pattern
`(Maturity|Mat\.?|MAT)\s*[:\-]?\s*([0-9A-Za-z ,/\-]+)` (case-insensitive):
returns the captured free-form date candidate. -/
def findTagged : List Char → Option (List Char)
  | [] => none
  | l@(_ :: rest) =>
      (let tagLen :=
        if ciPrefix "maturity" l then some 8
        else if ciPrefix "mat." l then some 4
        else if ciPrefix "mat" l then some 3
        else none
      match tagLen with
      | none => none
      | some n =>
          let r1 := (l.drop n).dropWhile isPySpace
          let inClass := fun c =>
            isDigitChar c || isAsciiAlpha c || c = ' ' || c = ',' || c = '/' || c = '-'
          -- greedy `[:\-]?` with backtracking into the capture class
          let withSep :=
            match r1 with
            | c :: r2 =>
                if c = ':' ∨ c = '-' then
                  let cap := (r2.dropWhile isPySpace).takeWhile inClass
                  if cap.isEmpty then none else some cap
                else none
            | [] => none
          match withSep with
          | some cap => some cap
          | none =>
              let cap := r1.takeWhile inClass
              if cap.isEmpty then none else some cap).orElse
        (fun _ => findTagged rest)

/-- Leftmost match of `\((\d{1,2}[/\-]\d{1,2}[/\-]\d{2,4})\)`: the captured
date text between the parentheses. -/
def findParenDate : List Char → Option (List Char)
  | [] => none
  | l@(_ :: rest) =>
      (match l with
      | '(' :: r1 =>
          let run1 := r1.takeWhile isDigitChar
          let r2 := r1.dropWhile isDigitChar
          match r2 with
          | s1 :: r3 =>
              if (run1.length = 1 ∨ run1.length = 2) ∧ (s1 = '/' ∨ s1 = '-') then
                let run2 := r3.takeWhile isDigitChar
                let r4 := r3.dropWhile isDigitChar
                match r4 with
                | s2 :: r5 =>
                    if (run2.length = 1 ∨ run2.length = 2) ∧ (s2 = '/' ∨ s2 = '-') then
                      let run3 := r5.takeWhile isDigitChar
                      let r6 := r5.dropWhile isDigitChar
                      if 2 ≤ run3.length ∧ run3.length ≤ 4 ∧ r6.head? = some ')' then
                        some (run1 ++ [s1] ++ run2 ++ [s2] ++ run3)
                      else none
                    else none
                | [] => none
              else none
          | [] => none
      | _ => none).orElse (fun _ => findParenDate rest)

/-- Leftmost match of `\b\d{1,2}[/\-]\d{1,2}[/\-]\d{2,4}\b` (`pats[1]`).
`prev` is the character before the scan position for the `\b` test. -/
def findNumericDate (prev : Option Char) : List Char → Option (List Char)
  | [] => none
  | l@(c0 :: rest) =>
      (if boundaryOk prev then
        let run1 := l.takeWhile isDigitChar
        let r2 := l.dropWhile isDigitChar
        match r2 with
        | s1 :: r3 =>
            if (run1.length = 1 ∨ run1.length = 2) ∧ (s1 = '/' ∨ s1 = '-') then
              let run2 := r3.takeWhile isDigitChar
              let r4 := r3.dropWhile isDigitChar
              match r4 with
              | s2 :: r5 =>
                  if (run2.length = 1 ∨ run2.length = 2) ∧ (s2 = '/' ∨ s2 = '-') then
                    let run3 := r5.takeWhile isDigitChar
                    let r6 := r5.dropWhile isDigitChar
                    if 2 ≤ run3.length ∧ run3.length ≤ 4 ∧ boundaryOk r6.head? then
                      some (run1 ++ [s1] ++ run2 ++ [s2] ++ run3)
                    else none
                  else none
              | [] => none
            else none
        | [] => none
      else none).orElse (fun _ => findNumericDate (some c0) rest)

/-- Leftmost match of `pats[0]`:
`\b\d{1,2}[/\-](Jan|…|Dec)[a-z]*[/\-]\d{2,4}\b` (case-insensitive). -/
def findMonthNameDate (prev : Option Char) : List Char → Option (List Char)
  | [] => none
  | l@(c0 :: rest) =>
      (if boundaryOk prev then
        let run1 := l.takeWhile isDigitChar
        let r2 := l.dropWhile isDigitChar
        match r2 with
        | s1 :: r3 =>
            if (run1.length = 1 ∨ run1.length = 2) ∧ (s1 = '/' ∨ s1 = '-') then
              match monthAlts.find? (fun p => ciPrefix p.1 r3) with
              | some p =>
                  let afterName := r3.drop p.1.length
                  let tailLetters := afterName.takeWhile isAsciiAlpha
                  let r4 := afterName.dropWhile isAsciiAlpha
                  match r4 with
                  | s2 :: r5 =>
                      if s2 = '/' ∨ s2 = '-' then
                        let run3 := r5.takeWhile isDigitChar
                        let r6 := r5.dropWhile isDigitChar
                        if 2 ≤ run3.length ∧ run3.length ≤ 4 ∧ boundaryOk r6.head? then
                          some (run1 ++ [s1] ++ (r3.take p.1.length) ++ tailLetters ++
                                [s2] ++ run3)
                        else none
                      else none
                  | [] => none
              | none => none
            else none
        | [] => none
      else none).orElse (fun _ => findMonthNameDate (some c0) rest)

/-- Leftmost match of `pats[2]`:
`\b\d{1,2}(st|nd|rd|th)?\s+(Jan|…|Dec)[a-z]*[, ]+\d{2,4}\b`
(case-insensitive). -/
def findWrittenDate (prev : Option Char) : List Char → Option (List Char)
  | [] => none
  | l@(c0 :: rest) =>
      (if boundaryOk prev then
        let run1 := l.takeWhile isDigitChar
        let r2 := l.dropWhile isDigitChar
        if run1.length = 1 ∨ run1.length = 2 then
          let (ordPart, r3) :=
            if ciPrefix "st" r2 ∨ ciPrefix "nd" r2 ∨ ciPrefix "rd" r2 ∨ ciPrefix "th" r2 then
              (r2.take 2, r2.drop 2)
            else ([], r2)
          let spaces := r3.takeWhile isPySpace
          let r4 := r3.dropWhile isPySpace
          if spaces.isEmpty then none
          else
            match monthAlts.find? (fun p => ciPrefix p.1 r4) with
            | some p =>
                let afterName := r4.drop p.1.length
                let tailLetters := afterName.takeWhile isAsciiAlpha
                let r5 := afterName.dropWhile isAsciiAlpha
                let seps := r5.takeWhile (fun c => c = ',' ∨ c = ' ')
                let r6 := r5.dropWhile (fun c => c = ',' ∨ c = ' ')
                if seps.isEmpty then none
                else
                  let run3 := r6.takeWhile isDigitChar
                  let r7 := r6.dropWhile isDigitChar
                  if 2 ≤ run3.length ∧ run3.length ≤ 4 ∧ boundaryOk r7.head? then
                    some (run1 ++ ordPart ++ spaces ++ (r4.take p.1.length) ++ tailLetters ++
                          seps ++ run3)
                  else none
            | none => none
        else none
      else none).orElse (fun _ => findWrittenDate (some c0) rest)

/-- `re.search(r"\b(Call|YTC)\b", text, re.I)`. -/
def hasCallToken (prev : Option Char) : List Char → Bool
  | [] => false
  | l@(c0 :: rest) =>
      (boundaryOk prev &&
        ((ciPrefix "call" l && boundaryOk (l.drop 4).head?) ||
         (ciPrefix "ytc" l && boundaryOk (l.drop 3).head?))) ||
      hasCallToken (some c0) rest

/-- `parse_date_from_text` from src/utils.py: clean the text, then try the
`MAT DDMMYY` code, the tagged `Maturity:` form, a parenthesized date, and
the three bare date patterns in order; each parse failure falls through.
The final `Call`/`YTC` test returns null exactly as the code does. -/
def parse_date_from_text (text : String) : Option DateYMD :=
  let t := cleanText text
  if t.data.isEmpty then none
  else
    match matBranch t.data with
    | some d => some d
    | none =>
        let tagged := (findTagged t.data).bind dparserParse
        match tagged with
        | some d => some d
        | none =>
            match (findParenDate t.data).bind dparserParse with
            | some d => some d
            | none =>
                match (findMonthNameDate none t.data).bind dparserParse with
                | some d => some d
                | none =>
                    match (findNumericDate none t.data).bind dparserParse with
                    | some d => some d
                    | none =>
                        match (findWrittenDate none t.data).bind dparserParse with
                        | some d => some d
                        | none =>
                            if hasCallToken none t.data then none else none

/-! ## Data quality gates (src/data_quality_gates.py)

A per-fund extract CSV (`<FUND>_verified.csv`) is embedded as a `Table`:
each `Row` carries the cells of the columns the gates read, and the `has*`
flags model column presence for the gates that test `col in df.columns`.
(The gates that index a column unconditionally — e.g. Gate 3's duplicate
analysis reading `Market Value (Lacs)` — presume it, as every file written
by the pipeline carries the full column set.) A fund whose file does not
exist on disk is `none` in the `files` association list. -/

structure Row where
  isin : Option String
  instName : Option String
  mval : NumCell
  nav : NumCell
  yld : NumCell
  qty : NumCell
  coupon : NumCell
  rating : Option String
  maturity : DateCell
  deriving DecidableEq

structure Table where
  hasIsin : Bool := true
  hasName : Bool := true
  hasMval : Bool := true
  hasNav : Bool := true
  hasYld : Bool := true
  hasQty : Bool := true
  hasCoupon : Bool := true
  hasRating : Bool := true
  hasMaturity : Bool := true
  rows : List Row
  deriving DecidableEq

/-- One row of the consolidated analysis CSV as Gate 9 reads it: the raw
`Rating` cell and the `Standardized Rating` cell. -/
structure ConsRow where
  rating : Option String
  std : Option String
  deriving DecidableEq

/-- One structured finding; each constructor corresponds to one
`critical_failures`/`warnings` append site of the validator (the formatted
message text is I/O and not modelled beyond its data). -/
inductive Issue where
  | invalidDateFormats (fund : String) (count : Nat)
  | pastMaturityDates (fund : String) (count : Nat)
  | farFutureMaturity (fund : String) (count : Nat)
  | navSumOutOfRange (fund : String) (navSum : ℚ)
  | negativeNav (fund : String) (count : Nat)
  | missingNavColumn (fund : String)
  | concentrationAbove25 (fund : String) (count : Nat)
  | dupIsinSameValue (fund isin : String) (count : Nat)
  | dupIsinDiffValues (fund isin : String) (count : Nat)
  | invalidIsinFormat (fund : String) (count : Nat)
  | missingIsins (fund : String) (count : Nat)
  | nonParsableValues (fund col : String) (count : Nat)
  | negativeMarketValues (fund : String) (count : Nat)
  | negativeNavValues (fund : String) (count : Nat)
  | veryHighNavValues (fund : String) (count : Nat)
  | negativeYieldValues (fund : String) (count : Nat)
  | veryHighYieldValues (fund : String) (count : Nat)
  | extremeHighMarketValues (fund : String) (count : Nat)
  | extremeLowMarketValues (fund : String) (count : Nat) (isins : List String)
  | extremeNavConcentration (fund : String) (count : Nat)
  | extremeYields (fund : String) (count : Nat)
  | coverageBelowThreshold (fund col : String) (threshold : Nat)
  | columnMissing (fund col : String)
  | unusualYields (fund : String) (count : Nat)
  | unratedBonds (fund : String) (count : Nat)
  | highTop10Concentration (fund : String)
  | fewHoldings (fund : String) (count : Nat)
  | manyHoldings (fund : String) (count : Nat)
  | consolidatedFileMissing
  | lowRatingCoverage
  | lowerHighQualityConcentration
  | junkExposureHigh (count : Nat)
  | junkExposureSome (count : Nat)
  | standardizationError (original expected : String) (count : Nat)
  | potentiallyRateable (count : Nat)
  deriving DecidableEq

structure GateResult where
  pass : Bool
  criticals : List Issue
  warns : List Issue
  deriving DecidableEq

/-- The funds whose extract file exists (`if not file_path.exists(): continue`). -/
def presentFunds (files : List (String × Option Table)) : List (String × Table) :=
  files.filterMap (fun p => p.2.map (fun t => (p.1, t)))

/-- Assemble a gate from per-fund contributions `(pass, issues, warnings)`:
the gate passes iff every fund's contribution passed, warnings accumulate
immediately, and the collected issues are extended into `critical_failures`
only when the gate as a whole failed (the code's
`if gate_passed: … else: self.critical_failures.extend(issues)`). -/
def combineFunds (contribs : List (Bool × List Issue × List Issue)) : GateResult :=
  let pass := contribs.all (·.1)
  { pass := pass
    criticals := if pass then [] else (contribs.map (fun c => c.2.1)).flatten
    warns := (contribs.map (fun c => c.2.2)).flatten }

def gateOf (f : String → Table → Bool × List Issue × List Issue)
    (files : List (String × Option Table)) : GateResult :=
  combineFunds ((presentFunds files).map (fun p => f p.1 p.2))

/-! ### Gate 1: date integrity -/

/-- Gate 1 per fund: unparseable `Maturity Date` cells fail the gate;
maturities before the report date or more than `50*365` days after it are
warnings (also listed among the gate's issues). `rd` is the report date as a
day ordinal. -/
def gate1Fund (rd : ℤ) (name : String) (t : Table) : Bool × List Issue × List Issue :=
  if t.hasMaturity then
    let cells := t.rows.map (·.maturity)
    let invalidCount :=
      (cells.filter (fun c => match c with | some (.inr _) => true | _ => false)).length
    let validDates := cells.filterMap (fun c => match c with | some (.inl d) => some d | _ => none)
    let i1 := if invalidCount > 0 then [Issue.invalidDateFormats name invalidCount] else []
    if validDates.length > 0 then
      let pastCount := (validDates.filter (fun d => decide (d < rd))).length
      let farCount := (validDates.filter (fun d => decide (d > rd + 50 * 365))).length
      let i2 := if pastCount > 0 then [Issue.pastMaturityDates name pastCount] else []
      let i3 := if farCount > 0 then [Issue.farFutureMaturity name farCount] else []
      (invalidCount = 0, i1 ++ i2 ++ i3, i2 ++ i3)
    else (invalidCount = 0, i1, [])
  else (true, [], [])

def gate1 (rd : ℤ) (files : List (String × Option Table)) : GateResult :=
  gateOf (gate1Fund rd) files

/-! ### Gate 2: % to NAV sanity -/

/-- Gate 2 per fund: the parsed `% to NAV` column must sum into `[92, 110]`
and contain no negative value; a missing column is a failure; any single
holding above 25 adds a concentration warning. -/
def gate2Fund (name : String) (t : Table) : Bool × List Issue × List Issue :=
  if t.hasNav then
    let navValues := parsedNums (t.rows.map (·.nav))
    let navSum := navValues.sum
    let outOfBand := decide (navSum < 92) || decide (navSum > 110)
    let veryHigh := (navValues.filter (fun q => decide (q > 25))).length
    let negative := (navValues.filter (fun q => decide (q < 0))).length
    let i1 := if outOfBand then [Issue.navSumOutOfRange name navSum] else []
    let i2 := if negative > 0 then [Issue.negativeNav name negative] else []
    let w := if veryHigh > 0 then [Issue.concentrationAbove25 name veryHigh] else []
    (!outOfBand && negative = 0, i1 ++ i2, w)
  else (false, [Issue.missingNavColumn name], [])

def gate2 (files : List (String × Option Table)) : GateResult :=
  gateOf gate2Fund files

/-! ### Gate 3: duplicate ISINs -/

def nonNullIsins (t : Table) : List String := t.rows.filterMap (·.isin)

def distinctFirstSeen (l : List String) : List String :=
  l.foldl (fun acc s => if s ∈ acc then acc else acc ++ [s]) []

def countOcc (l : List String) (s : String) : Nat := (l.filter (fun x => x = s)).length

/-- `df['ISIN'].value_counts()` before sorting: distinct non-null ISINs in
first-appearance order with their multiplicities. -/
def isinValueCounts (t : Table) : List (String × Nat) :=
  (distinctFirstSeen (nonNullIsins t)).map (fun s => (s, countOcc (nonNullIsins t) s))

/-- Stable insertion for a descending sort by count. -/
def insertCountDesc (x : String × Nat) : List (String × Nat) → List (String × Nat)
  | [] => [x]
  | y :: ys => if x.2 ≥ y.2 then x :: y :: ys else y :: insertCountDesc x ys

/-- `value_counts()`' descending order by count (ties in first-appearance
order). -/
def sortCountDesc (l : List (String × Nat)) : List (String × Nat) :=
  l.foldr insertCountDesc []

/-- `Series.unique()` over raw cells: first-seen distinct values (all NaN
cells collapse to one entry, as in pandas). -/
def uniqueCells (cells : List NumCell) : List NumCell :=
  cells.foldl (fun (acc : List NumCell) (c : NumCell) =>
    if acc.any (fun x => decide (x = c)) then acc else acc ++ [c]) []

/-- `duplicates.head(5)`: the first five duplicated ISINs in
`value_counts()` order. -/
def gate3Examined (t : Table) : List (String × Nat) :=
  ((sortCountDesc (isinValueCounts t)).filter (fun p => p.2 > 1)).take 5

/-- The analysis of one examined duplicated ISIN: several distinct market
values → warning only (legitimate split lot), a single distinct value →
critical failure (likely extraction bug). -/
def gate3Dup (name : String) (t : Table) (p : String × Nat) :
    Bool × List Issue × List Issue :=
  let dupRows := t.rows.filter (fun r => r.isin = some p.1)
  let values := uniqueCells (dupRows.map (·.mval))
  if values.length > 1 then
    (true, ([] : List Issue), [Issue.dupIsinDiffValues name p.1 p.2])
  else (false, [Issue.dupIsinSameValue name p.1 p.2], ([] : List Issue))

/-- Gate 3 per fund: among the first **five** duplicated ISINs (by
descending multiplicity), one with a single distinct market value is a
critical failure, one with several distinct values only a warning.
Cross-fund duplicates in the consolidated file are printed, never recorded. -/
def gate3Fund (name : String) (t : Table) : Bool × List Issue × List Issue :=
  if t.hasIsin then
    let contribs := (gate3Examined t).map (gate3Dup name t)
    (contribs.all (·.1), (contribs.map (fun c => c.2.1)).flatten,
     (contribs.map (fun c => c.2.2)).flatten)
  else (true, [], [])

/-- Gate 3; the consolidated table only feeds the informational cross-fund
printout, so the result does not depend on it. -/
def gate3 (files : List (String × Option Table)) (_cons : Option (List ConsRow)) :
    GateResult :=
  gateOf gate3Fund files

/-! ### Gate 4: ISIN format -/

/-- The gate's own regex `^[A-Z]{2}[A-Z0-9]{9}[0-9]$`. -/
def isinPatternG4 (s : String) : Bool :=
  match s.data with
  | c1 :: c2 :: rest =>
      isUpperAZ c1 && isUpperAZ c2 && rest.length = 10 &&
      (rest.take 9).all (fun c => isUpperAZ c || isDigitChar c) &&
      (rest.drop 9).all isDigitChar
  | _ => false

/-- `df['ISIN'].astype(str).str.replace(' ', '').str.upper()`. -/
def gate4CleanIsin (s : String) : String :=
  strUpper (String.mk (replaceSub " ".data [] s.data))

/-- Gate 4 per fund: every non-null ISIN must match the pattern after
space-stripping and uppercasing, and no ISIN may be missing. -/
def gate4Fund (name : String) (t : Table) : Bool × List Issue × List Issue :=
  if t.hasIsin then
    let invalidCount := (t.rows.filter (fun r =>
      match r.isin with
      | some s => !isinPatternG4 (gate4CleanIsin s)
      | none => false)).length
    let missing := (t.rows.filter (fun r => r.isin = none)).length
    let i1 := if invalidCount > 0 then [Issue.invalidIsinFormat name invalidCount] else []
    let i2 := if missing > 0 then [Issue.missingIsins name missing] else []
    (invalidCount = 0 && missing = 0, i1 ++ i2, [])
  else (true, [], [])

def gate4 (files : List (String × Option Table)) : GateResult :=
  gateOf gate4Fund files

/-! ### Gate 5: type casting and ranges -/

/-- Non-null cells `to_numeric` coerces to NaN. -/
def nonParsableCount (cells : List NumCell) : Nat :=
  (cells.filter (fun c => match c with | some (.inr _) => true | _ => false)).length

def negCount (cells : List NumCell) : Nat :=
  ((parsedNums cells).filter (fun q => decide (q < 0))).length

/-- Gate 5 per fund: the five numeric columns must parse cleanly; negative
market values, `% to NAV` or yields fail; `% to NAV > 50` and `Yield > 25`
are warnings. Issues accumulate in the code's column order. -/
def gate5Fund (name : String) (t : Table) : Bool × List Issue × List Issue :=
  let mvPart :=
    if t.hasMval then
      let cells := t.rows.map (·.mval)
      let np := nonParsableCount cells
      let ng := negCount cells
      (np = 0 && ng = 0,
       (if np > 0 then [Issue.nonParsableValues name "Market Value (Lacs)" np] else []) ++
         (if ng > 0 then [Issue.negativeMarketValues name ng] else []),
       ([] : List Issue))
    else (true, [], [])
  let navPart :=
    if t.hasNav then
      let cells := t.rows.map (·.nav)
      let np := nonParsableCount cells
      let ng := negCount cells
      let hi := ((parsedNums cells).filter (fun q => decide (q > 50))).length
      (np = 0 && ng = 0,
       (if np > 0 then [Issue.nonParsableValues name "% to NAV" np] else []) ++
         (if ng > 0 then [Issue.negativeNavValues name ng] else []),
       if hi > 0 then [Issue.veryHighNavValues name hi] else [])
    else (true, [], [])
  let yldPart :=
    if t.hasYld then
      let cells := t.rows.map (·.yld)
      let np := nonParsableCount cells
      let ng := negCount cells
      let hi := ((parsedNums cells).filter (fun q => decide (q > 25))).length
      (np = 0 && ng = 0,
       (if np > 0 then [Issue.nonParsableValues name "Yield" np] else []) ++
         (if ng > 0 then [Issue.negativeYieldValues name ng] else []),
       if hi > 0 then [Issue.veryHighYieldValues name hi] else [])
    else (true, [], [])
  let qtyPart :=
    if t.hasQty then
      let np := nonParsableCount (t.rows.map (·.qty))
      ((np = 0 : Bool), if np > 0 then [Issue.nonParsableValues name "Quantity" np] else [],
       ([] : List Issue))
    else (true, [], [])
  let cpnPart :=
    if t.hasCoupon then
      let np := nonParsableCount (t.rows.map (·.coupon))
      ((np = 0 : Bool), if np > 0 then [Issue.nonParsableValues name "Coupon" np] else [],
       ([] : List Issue))
    else (true, [], [])
  (mvPart.1 && navPart.1 && yldPart.1 && qtyPart.1 && cpnPart.1,
   mvPart.2.1 ++ navPart.2.1 ++ yldPart.2.1 ++ qtyPart.2.1 ++ cpnPart.2.1,
   mvPart.2.2 ++ navPart.2.2 ++ yldPart.2.2 ++ qtyPart.2.2 ++ cpnPart.2.2)

def gate5 (files : List (String × Option Table)) : GateResult :=
  gateOf gate5Fund files

/-! ### Gate 6: outliers -/

def insertAsc (x : ℚ) : List ℚ → List ℚ
  | [] => [x]
  | y :: ys => if x ≤ y then x :: y :: ys else y :: insertAsc x ys

def sortAsc (l : List ℚ) : List ℚ := l.foldr insertAsc []

/-- `Series.quantile(q)` with pandas' default linear interpolation. -/
def quantileLinear (vals : List ℚ) (q : ℚ) : ℚ :=
  let v := sortAsc vals
  let h := q * ((v.length : ℚ) - 1)
  let lo := h.floor
  let loN := lo.toNat
  let frac := h - (lo : ℚ)
  let vlo := v.getD loN 0
  let vhi := v.getD (loN + 1) vlo
  vlo + frac * (vhi - vlo)

/-- Gate 6 per fund: a holding with `% to NAV > 30` is a critical failure;
market-value outliers (relative to the 99th/1st percentile) and extreme
yields only warn. -/
def gate6Fund (name : String) (t : Table) : Bool × List Issue × List Issue :=
  let mvWarns :=
    if t.hasMval then
      let values := parsedNums (t.rows.map (·.mval))
      if values.length > 0 then
        let q99 := quantileLinear values (99 / 100)
        let q01 := quantileLinear values (1 / 100)
        let extremeHigh := (values.filter (fun x => decide (x > q99 * 5))).length
        let lowThreshold := max (q01 / 5) 1
        let extremeLow := (values.filter (fun x => decide (x < lowThreshold))).length
        let w1 := if extremeHigh > 0 then [Issue.extremeHighMarketValues name extremeHigh] else []
        let w2 :=
          if extremeLow > 0 then
            let isins :=
              if t.hasIsin then
                (t.rows.filter (fun r =>
                  match toNumeric r.mval with
                  | some x => decide (x < lowThreshold)
                  | none => false)).filterMap (·.isin)
              else []
            [Issue.extremeLowMarketValues name extremeLow isins]
          else []
        w1 ++ w2
      else []
    else []
  let navPart :=
    if t.hasNav then
      let navValues := parsedNums (t.rows.map (·.nav))
      if navValues.length > 0 then
        let extremeNav := (navValues.filter (fun q => decide (q > 30))).length
        if extremeNav > 0 then (false, [Issue.extremeNavConcentration name extremeNav])
        else (true, ([] : List Issue))
      else (true, [])
    else (true, [])
  let yldWarns :=
    if t.hasYld then
      let yields := parsedNums (t.rows.map (·.yld))
      if yields.length > 0 then
        let extreme := (yields.filter (fun y => decide (y > 20) || decide (y < -5))).length
        if extreme > 0 then [Issue.extremeYields name extreme] else []
      else []
    else []
  (navPart.1, navPart.2, mvWarns ++ yldWarns)

def gate6 (files : List (String × Option Table)) : GateResult :=
  gateOf gate6Fund files

/-! ### Gate 7: coverage -/

/-- One coverage check: `coverage_pct = non_null/total*100` against the
minimum threshold; only a missed 100% threshold (or a missing column) fails
the gate, but every miss is listed. -/
def coverageCheck (name col : String) (present : Bool) (nonNull total thr : Nat) :
    Bool × List Issue :=
  if present then
    if decide ((nonNull : ℚ) / (total : ℚ) * 100 ≥ (thr : ℚ)) then (true, [])
    else (!(thr = 100 : Bool), [Issue.coverageBelowThreshold name col thr])
  else (false, [Issue.columnMissing name col])

def optCount {α : Type} (l : List (Option α)) : Nat := (l.filter Option.isSome).length

/-- Gate 7 per fund, in the code's threshold-table order. -/
def gate7Fund (name : String) (t : Table) : Bool × List Issue × List Issue :=
  let total := t.rows.length
  let c1 := coverageCheck name "ISIN" t.hasIsin (optCount (t.rows.map (·.isin))) total 100
  let c2 := coverageCheck name "Instrument Name" t.hasName
    (optCount (t.rows.map (·.instName))) total 100
  let c3 := coverageCheck name "Market Value (Lacs)" t.hasMval
    (optCount (t.rows.map (·.mval))) total 100
  let c4 := coverageCheck name "% to NAV" t.hasNav (optCount (t.rows.map (·.nav))) total 95
  let c5 := coverageCheck name "Rating" t.hasRating (optCount (t.rows.map (·.rating))) total 80
  let c6 := coverageCheck name "Yield" t.hasYld (optCount (t.rows.map (·.yld))) total 70
  let c7 := coverageCheck name "Maturity Date" t.hasMaturity
    (optCount (t.rows.map (·.maturity))) total 50
  (c1.1 && c2.1 && c3.1 && c4.1 && c5.1 && c6.1 && c7.1,
   c1.2 ++ c2.2 ++ c3.2 ++ c4.2 ++ c5.2 ++ c6.2 ++ c7.2, [])

def gate7 (files : List (String × Option Table)) : GateResult :=
  gateOf gate7Fund files

/-! ### Gate 8: business logic (warning-only) -/

/-- `Series.nlargest(10).sum()`. -/
def top10Sum (values : List ℚ) : ℚ := ((sortAsc values).reverse.take 10).sum

/-- Gate 8 per fund: yield-plausibility, unrated-proportion, top-10
concentration and holdings-count checks, all of which only append warnings;
`gate_passed` is never written, so the contribution is always a pass.
(The float thresholds `0.3`/`0.1` are modelled as exact rationals.) -/
def gate8Fund (name : String) (t : Table) : Bool × List Issue × List Issue :=
  let w1 :=
    if t.hasYld then
      let yields := parsedNums (t.rows.map (·.yld))
      if yields.length > 0 then
        let reasonable := (yields.filter (fun y => decide (4 ≤ y) && decide (y ≤ 15))).length
        let unreasonable := yields.length - reasonable
        if decide ((unreasonable : ℚ) > (yields.length : ℚ) * 3 / 10) then
          [Issue.unusualYields name unreasonable]
        else []
      else []
    else []
  let w2 :=
    if t.hasRating then
      let ratings := t.rows.filterMap (·.rating)
      if ratings.length > 0 then
        let unrated := (ratings.filter (fun r =>
          strContainsCI r "unrated" || strContainsCI r "not rated" || strContainsCI r "nr")).length
        if decide ((unrated : ℚ) > (ratings.length : ℚ) * 1 / 10) then
          [Issue.unratedBonds name unrated]
        else []
      else []
    else []
  let w3 :=
    if t.hasMval then
      let values := parsedNums (t.rows.map (·.mval))
      if values.length > 0 then
        let total := values.sum
        let top10 := top10Sum values
        -- float `top10/total*100 > 80`; division by a zero total yields
        -- inf/nan, which compares `> 80` exactly when `top10 > 0`
        let warn := if total = 0 then decide (top10 > 0)
          else decide (top10 / total * 100 > 80)
        if warn then [Issue.highTop10Concentration name] else []
      else []
    else []
  let n := t.rows.length
  let w4 :=
    if n < 20 then [Issue.fewHoldings name n]
    else if n > 500 then [Issue.manyHoldings name n]
    else []
  (true, [], w1 ++ w2 ++ w3 ++ w4)

def gate8 (files : List (String × Option Table)) : GateResult :=
  gateOf gate8Fund files

/-! ### Gate 9: rating standardization (consolidated file) -/

def sampleChecks : List (String × String) :=
  [("CRISIL AAA", "AAA"), ("ICRA AAA", "AAA"), ("CARE AAA", "AAA"),
   ("SOV", "SOVEREIGN"), ("Sovereign", "SOVEREIGN")]

def junkGrades : List String := ["BB+", "BB", "BB-", "B+", "B", "B-", "C", "D"]

/-- Gate 9 on the consolidated file (`none` = file absent: that alone is a
critical failure and the gate is skipped). The `Rating`/`Standardized
Rating` columns are structural in `ConsRow` (every consolidated file the
pipeline writes has both; the code crashes on a file without them). Float
comparisons against NaN from zero-row divisions are `False`, matched here by
guarding on `total ≠ 0`. -/
def gate9 (cons : Option (List ConsRow)) : GateResult :=
  match cons with
  | none => { pass := false, criticals := [Issue.consolidatedFileMissing], warns := [] }
  | some df =>
      let total := df.length
      let stdCount := (df.filter (fun r => r.std.isSome)).length
      let covFail := total ≠ 0 && decide ((stdCount : ℚ) / (total : ℚ) * 100 < 95)
      let i1 := if covFail then [Issue.lowRatingCoverage] else []
      let aaaCount := (df.filter (fun r => r.std = some "AAA")).length
      let sovCount := (df.filter (fun r => r.std = some "SOVEREIGN")).length
      let w1 :=
        if total ≠ 0 && decide (((aaaCount : ℚ) + (sovCount : ℚ)) / (total : ℚ) * 100 < 70) then
          [Issue.lowerHighQualityConcentration]
        else []
      let junkCount := (df.filter (fun r =>
        match r.std with | some g => junkGrades.contains g | none => false)).length
      let junkPart :=
        if junkCount > 0 then
          if decide ((junkCount : ℚ) / (total : ℚ) * 100 > 5) then
            (false, [Issue.junkExposureHigh junkCount], ([] : List Issue))
          else (true, [], [Issue.junkExposureSome junkCount])
        else (true, [], [])
      let errs := sampleChecks.filterMap (fun p =>
        let matched := df.filter (fun r =>
          match r.rating with | some s => strContainsCI s p.1 | none => false)
        if matched.length > 0 then
          let incorrect := (matched.filter (fun r => r.std ≠ some p.2)).length
          if incorrect > 0 then some (Issue.standardizationError p.1 p.2 incorrect) else none
        else none)
      let unrated := df.filter (fun r => r.std = none)
      let w3 :=
        if unrated.length > 0 then
          let patterns := ["AAA", "AA", "A+", "A-", "BBB"]
          let potentially := (patterns.map (fun p => (unrated.filter (fun r =>
            match r.rating with | some s => strContainsCI s p | none => false)).length)).sum
          if potentially > 0 then [Issue.potentiallyRateable potentially] else []
        else []
      let pass := !covFail && junkPart.1 && errs.isEmpty
      { pass := pass
        criticals := if pass then [] else i1 ++ junkPart.2.1 ++ errs
        warns := w1 ++ junkPart.2.2 ++ w3 }

/-! ### The validator -/

structure Verdict where
  verdict : Bool
  criticals : List Issue
  warns : List Issue
  deriving DecidableEq

/-- `DataQualityGates.validate_all_funds`: run all nine gates in order
(`all_passed &= gate(...)` evaluates every gate regardless of earlier
failures), collecting every gate's critical failures and warnings. -/
def validateAllFunds (rd : ℤ) (files : List (String × Option Table))
    (cons : Option (List ConsRow)) : Verdict :=
  let g1 := gate1 rd files
  let g2 := gate2 files
  let g3 := gate3 files cons
  let g4 := gate4 files
  let g5 := gate5 files
  let g6 := gate6 files
  let g7 := gate7 files
  let g8 := gate8 files
  let g9 := gate9 cons
  { verdict := g1.pass && g2.pass && g3.pass && g4.pass && g5.pass && g6.pass &&
      g7.pass && g8.pass && g9.pass
    criticals := g1.criticals ++ g2.criticals ++ g3.criticals ++ g4.criticals ++
      g5.criticals ++ g6.criticals ++ g7.criticals ++ g8.criticals ++ g9.criticals
    warns := g1.warns ++ g2.warns ++ g3.warns ++ g4.warns ++ g5.warns ++ g6.warns ++
      g7.warns ++ g8.warns ++ g9.warns }

/-! ## Concrete example data used by the theorems below -/

/-- A minimal row: a valid-shaped ISIN cell, an instrument name, a market
value and a `% to NAV` cell; the remaining columns are empty. -/
def exRow (isin : Option String) (mv nv : NumCell) : Row :=
  { isin := isin, instName := some "X", mval := mv, nav := nv, yld := none,
    qty := none, coupon := none, rating := none, maturity := none }

/-- Six distinct duplicated ISINs: `I1`–`I5` three times each with pairwise
different market values, `I6` twice with the identical market value. -/
def tableDup6 : Table :=
  { rows :=
      [exRow (some "I1") (some (.inl 1)) none, exRow (some "I1") (some (.inl 2)) none,
       exRow (some "I1") (some (.inl 3)) none,
       exRow (some "I2") (some (.inl 1)) none, exRow (some "I2") (some (.inl 2)) none,
       exRow (some "I2") (some (.inl 3)) none,
       exRow (some "I3") (some (.inl 1)) none, exRow (some "I3") (some (.inl 2)) none,
       exRow (some "I3") (some (.inl 3)) none,
       exRow (some "I4") (some (.inl 1)) none, exRow (some "I4") (some (.inl 2)) none,
       exRow (some "I4") (some (.inl 3)) none,
       exRow (some "I5") (some (.inl 1)) none, exRow (some "I5") (some (.inl 2)) none,
       exRow (some "I5") (some (.inl 3)) none,
       exRow (some "I6") (some (.inl 7)) none, exRow (some "I6") (some (.inl 7)) none] }

/-- One ISIN duplicated with the identical market value. -/
def tableDupSame : Table :=
  { rows := [exRow (some "I1") (some (.inl 7)) none, exRow (some "I1") (some (.inl 7)) none] }

/-- One ISIN duplicated with two different market values. -/
def tableDupDiff : Table :=
  { rows := [exRow (some "I1") (some (.inl 1)) none, exRow (some "I1") (some (.inl 2)) none] }

/-- A table from a `% to NAV` column. -/
def tableOfNav (cells : List NumCell) : Table :=
  { rows := cells.map (fun c => exRow (some "I") (some (.inl 1)) c) }

/-- `% to NAV` values 10, 20, 70 (sum 100). -/
def tableNav100 : Table := tableOfNav [some (.inl 10), some (.inl 20), some (.inl 70)]

/-- A single `% to NAV` value 50 (sum 50). -/
def tableNav50 : Table := tableOfNav [some (.inl 50)]

/-- A consolidated table on which Gate 9 passes. -/
def goodCons : List ConsRow := [{ rating := some "CRISIL AAA", std := some "AAA" }]

/-- The validator's six funds, every extract file absent. -/
def sixNone : List (String × Option Table) :=
  [("ABSLF", none), ("HDFC", none), ("ICICI", none),
   ("KOTAK", none), ("NIPPON", none), ("SBI", none)]

/-- The ABSLF fraction-format column of the spec's rescaling scenario:
maximum 0.091. -/
def col091 : List NumCell := [some (.inl (91 / 1000)), none, some (.inl (1 / 20))]

/-- A column whose first three values are below 1 while its true maximum
(the fourth value, 2) is not. -/
def colSmallHead : List NumCell :=
  [some (.inl (1 / 2)), some (.inl (1 / 2)), some (.inl (1 / 2)), some (.inl 2)]

/-! ## Claim theorems -/

/-- C1: the validator's overall verdict is the conjunction of the nine
gates' pass booleans; every gate's critical failures and warnings appear in
the final report regardless of earlier gates' outcomes (no early exit); and
Gate 8 returns a pass for every input, so it never drives the overall
verdict false. -/
theorem validator_verdict_is_and_of_gates (rd : ℤ)
    (files : List (String × Option Table)) (cons : Option (List ConsRow)) :
    (validateAllFunds rd files cons).verdict =
      ((gate1 rd files).pass && (gate2 files).pass && (gate3 files cons).pass &&
       (gate4 files).pass && (gate5 files).pass && (gate6 files).pass &&
       (gate7 files).pass && (gate8 files).pass && (gate9 cons).pass) ∧
    (validateAllFunds rd files cons).criticals =
      (gate1 rd files).criticals ++ (gate2 files).criticals ++
      (gate3 files cons).criticals ++ (gate4 files).criticals ++
      (gate5 files).criticals ++ (gate6 files).criticals ++
      (gate7 files).criticals ++ (gate8 files).criticals ++ (gate9 cons).criticals ∧
    (validateAllFunds rd files cons).warns =
      (gate1 rd files).warns ++ (gate2 files).warns ++ (gate3 files cons).warns ++
      (gate4 files).warns ++ (gate5 files).warns ++ (gate6 files).warns ++
      (gate7 files).warns ++ (gate8 files).warns ++ (gate9 cons).warns ∧
    (gate8 files).pass = true := by
  refine ⟨rfl, rfl, rfl, ?_⟩
  simp only [gate8, gateOf, combineFunds, List.all_eq_true, List.mem_map]
  rintro b ⟨p, _, rfl⟩
  rfl

/-- C10: in every per-source gate, a fund whose extract file does not exist
is skipped and contributes neither a critical failure nor a warning, and
with every per-source file absent all of gates 1–8 pass, so the overall
verdict can still be true (given a consolidated file that satisfies
Gate 9). -/
theorem missing_fund_files_are_skipped :
    (∀ rd fs1 fs2 n, gate1 rd (fs1 ++ (n, (none : Option Table)) :: fs2) =
      gate1 rd (fs1 ++ fs2)) ∧
    (∀ fs1 fs2 n, gate2 (fs1 ++ (n, (none : Option Table)) :: fs2) = gate2 (fs1 ++ fs2)) ∧
    (∀ fs1 fs2 n cons, gate3 (fs1 ++ (n, (none : Option Table)) :: fs2) cons =
      gate3 (fs1 ++ fs2) cons) ∧
    (∀ fs1 fs2 n, gate4 (fs1 ++ (n, (none : Option Table)) :: fs2) = gate4 (fs1 ++ fs2)) ∧
    (∀ fs1 fs2 n, gate5 (fs1 ++ (n, (none : Option Table)) :: fs2) = gate5 (fs1 ++ fs2)) ∧
    (∀ fs1 fs2 n, gate6 (fs1 ++ (n, (none : Option Table)) :: fs2) = gate6 (fs1 ++ fs2)) ∧
    (∀ fs1 fs2 n, gate7 (fs1 ++ (n, (none : Option Table)) :: fs2) = gate7 (fs1 ++ fs2)) ∧
    (∀ fs1 fs2 n, gate8 (fs1 ++ (n, (none : Option Table)) :: fs2) = gate8 (fs1 ++ fs2)) ∧
    (validateAllFunds 20300 sixNone (some goodCons)).verdict = true ∧
    (validateAllFunds 20300 sixNone (some goodCons)).criticals = [] ∧
    (validateAllFunds 20300 sixNone (some goodCons)).warns = [] := by
  have hp : ∀ fs1 fs2 (n : String),
      presentFunds (fs1 ++ (n, (none : Option Table)) :: fs2) = presentFunds (fs1 ++ fs2) := by
    intro fs1 fs2 n
    simp [presentFunds, List.filterMap_append]
  exact ⟨fun rd fs1 fs2 n => by simp only [gate1, gateOf, hp],
         fun fs1 fs2 n => by simp only [gate2, gateOf, hp],
         fun fs1 fs2 n cons => by simp only [gate3, gateOf, hp],
         fun fs1 fs2 n => by simp only [gate4, gateOf, hp],
         fun fs1 fs2 n => by simp only [gate5, gateOf, hp],
         fun fs1 fs2 n => by simp only [gate6, gateOf, hp],
         fun fs1 fs2 n => by simp only [gate7, gateOf, hp],
         fun fs1 fs2 n => by simp only [gate8, gateOf, hp],
         by decide, by decide, by decide⟩

/-- C4 counterexample: `"US0378331005"` matches the claimed pattern
`^[A-Z]{2}[A-Z0-9]{9}[0-9]$` yet `utils.is_valid_isin` rejects it (its
regex demands the `IN` country prefix); conversely `"INE261F08EKA"` does
not match the claimed pattern (its final character is a letter) yet
`utils.is_valid_isin` accepts it. `extract.py`'s cruder validator also
disagrees with the claimed pattern. -/
theorem is_valid_isin_claim_counterexample :
    specIsinPattern "US0378331005" = true ∧
    is_valid_isin (some "US0378331005") = false ∧
    specIsinPattern "INE261F08EKA" = false ∧
    is_valid_isin (some "INE261F08EKA") = true ∧
    extract_is_valid_isin (some "AB!!!!!!!!!1") = true ∧
    specIsinPattern "AB!!!!!!!!!1" = false := by decide

/-- C4 amended: after stripping and uppercasing, `utils.is_valid_isin`
accepts exactly the 12-character strings `IN` followed by ten uppercase
alphanumerics, and `extract.py`'s `is_valid_isin` accepts exactly the
12-character strings whose first two characters are letters; both return
false on null input. -/
theorem is_valid_isin_characterization :
    (∀ s, is_valid_isin (some s) = true ↔
      (strUpper (strStrip s)).data.take 2 = ['I', 'N'] ∧
      ((strUpper (strStrip s)).data.drop 2).length = 10 ∧
      ∀ c ∈ (strUpper (strStrip s)).data.drop 2,
        isUpperAZ c = true ∨ isDigitChar c = true) ∧
    is_valid_isin none = false ∧
    (∀ s, extract_is_valid_isin (some s) = true ↔
      (strUpper (strStrip s)).length = 12 ∧
      ∀ c ∈ (strUpper (strStrip s)).data.take 2, isAsciiAlpha c = true) ∧
    extract_is_valid_isin none = false := by
  refine ⟨?_, rfl, ?_, rfl⟩
  · intro s
    show (matchesIsinReIN (strUpper (strStrip s)) &&
      (strUpper (strStrip s)).length = 12) = true ↔ _
    rw [show strUpper (strStrip s) = ⟨(strUpper (strStrip s)).data⟩ from rfl]
    generalize (strUpper (strStrip s)).data = l
    match l with
    | [] => simp [matchesIsinReIN, String.length]
    | [c] => simp [matchesIsinReIN, String.length]
    | c1 :: c2 :: tl =>
      simp only [matchesIsinReIN, String.length, List.length_cons, List.take,
        List.drop, Bool.and_eq_true, decide_eq_true_eq, List.all_eq_true,
        Bool.or_eq_true, List.cons.injEq, and_true]
      constructor
      · rintro ⟨⟨⟨⟨h1, h2⟩, h3⟩, h4⟩, _⟩
        exact ⟨⟨h1, h2⟩, h3, h4⟩
      · rintro ⟨⟨h1, h2⟩, h3, h4⟩
        refine ⟨⟨⟨⟨h1, h2⟩, h3⟩, h4⟩, by omega⟩
  · intro s
    simp only [extract_is_valid_isin, Bool.and_eq_true, decide_eq_true_eq,
      List.all_eq_true]

/-- C5: the rating standardizer sends `"CRISIL AAA (CE)"` to `AAA`,
`"ICRA A1+"` to `A1+` and `"SOV"` to `SOVEREIGN`; `normalize_rating`
returns `SOVEREIGN` for an instrument named `"7.26% GOI 2033"` whatever the
raw rating is; and a purely decimal artifact cell standardizes to null. -/
theorem rating_standardization_scenarios :
    extract_rating_from_text (some "CRISIL AAA (CE)") ratingCfg = some "AAA" ∧
    extract_rating_from_text (some "ICRA A1+") ratingCfg = some "A1+" ∧
    extract_rating_from_text (some "SOV") ratingCfg = some "SOVEREIGN" ∧
    (∀ raw, normalize_rating raw "7.26% GOI 2033" ratingCfg = "SOVEREIGN") ∧
    extract_rating_from_text (some "0.06271996470050001") ratingCfg = none :=
  ⟨by decide, by decide, by decide, fun _ => rfl, by decide⟩

/-- C8: the `MAT DDMMYY` code decodes with the `YY < 50 ↦ 20YY` pivot
(`"MAT 181139"` → 2039-11-18, `"MAT 251225"` → 2025-12-25), but text
containing `"Call"` next to a date-like substring does **not** yield null:
the bare date pattern fires first and the `Call`/`YTC` test at the end of
the function is dead code, contradicting the spec's suppression rule. -/
theorem parse_date_mat_and_call_behaviour :
    parse_date_from_text "MAT 181139" = some ⟨2039, 11, 18⟩ ∧
    parse_date_from_text "MAT 251225" = some ⟨2025, 12, 25⟩ ∧
    parse_date_from_text "Call 15/09/2028" = some ⟨2028, 9, 15⟩ ∧
    parse_date_from_text "YTC 15/09/2028" = some ⟨2028, 9, 15⟩ := by decide

/-- Reduce a gate built from `gateOf` on a single present fund to the
per-fund contribution. -/
theorem gateOf_singleton (f : String → Table → Bool × List Issue × List Issue)
    (name : String) (t : Table) :
    gateOf f [(name, some t)] =
      { pass := (f name t).1
        criticals := if (f name t).1 then [] else (f name t).2.1
        warns := (f name t).2.2 } := by
  simp [gateOf, presentFunds, combineFunds]

/-- The parsed `% to NAV` column of a table. -/
theorem parsedNums_nonneg_filter (l : List ℚ) (h : ∀ q ∈ l, 0 ≤ q) :
    (l.filter (fun q => decide (q < 0))).length = 0 := by
  rw [List.length_eq_zero, List.filter_eq_nil_iff]
  intro q hq
  simpa using not_lt.mpr (h q hq)

/-- C2: on a per-source table carrying a `% to NAV` column with no negative
parsed value, Gate 2 passes iff the column sum lies in `[92, 110]`; a
negative value or an absent column is a critical failure; a holding above
25 produces a concentration warning. -/
theorem gate2_nav_sanity_characterization :
    (∀ name t, t.hasNav = true →
      (∀ q ∈ parsedNums (t.rows.map (·.nav)), 0 ≤ q) →
      ((gate2 [(name, some t)]).pass = true ↔
        92 ≤ (parsedNums (t.rows.map (·.nav))).sum ∧
          (parsedNums (t.rows.map (·.nav))).sum ≤ 110)) ∧
    (∀ name t, t.hasNav = true →
      (∃ q ∈ parsedNums (t.rows.map (·.nav)), q < 0) →
      (gate2 [(name, some t)]).pass = false ∧
        (gate2 [(name, some t)]).criticals ≠ []) ∧
    (∀ name t, t.hasNav = false →
      (gate2 [(name, some t)]).pass = false ∧
        Issue.missingNavColumn name ∈ (gate2 [(name, some t)]).criticals) ∧
    (∀ name t, t.hasNav = true →
      (∃ q ∈ parsedNums (t.rows.map (·.nav)), 25 < q) →
      ∃ k, 0 < k ∧ Issue.concentrationAbove25 name k ∈ (gate2 [(name, some t)]).warns) := by
  refine ⟨?_, ?_, ?_, ?_⟩
  · intro name t hnav hpos
    rw [show gate2 [(name, some t)] = gateOf gate2Fund [(name, some t)] from rfl,
      gateOf_singleton]
    show (gate2Fund name t).1 = true ↔ _
    simp only [gate2Fund, hnav, if_true]
    rw [parsedNums_nonneg_filter _ hpos]
    simp only [Bool.and_eq_true, Bool.not_eq_true', Bool.or_eq_false_iff,
      decide_eq_false_iff_not, not_lt, decide_eq_true_eq, and_true]
  · intro name t hnav hneg
    rw [show gate2 [(name, some t)] = gateOf gate2Fund [(name, some t)] from rfl,
      gateOf_singleton]
    have hcount : 0 < ((parsedNums (t.rows.map (·.nav))).filter
        (fun q => decide (q < 0))).length := by
      obtain ⟨q, hq, hqneg⟩ := hneg
      exact List.length_pos_of_mem (List.mem_filter.mpr ⟨hq, by simpa using hqneg⟩)
    have hpass : (gate2Fund name t).1 = false := by
      simp only [gate2Fund, hnav, if_true, Bool.and_eq_false_iff,
        decide_eq_false_iff_not]
      exact Or.inr (by omega)
    refine ⟨hpass, ?_⟩
    show (if (gate2Fund name t).1 then [] else (gate2Fund name t).2.1) ≠ []
    rw [hpass, if_neg (by simp)]
    simp only [gate2Fund, hnav, if_true]
    intro habs
    rcases List.append_eq_nil.mp habs with ⟨_, h2⟩
    rw [if_pos hcount] at h2
    simp at h2
  · intro name t hnav
    rw [show gate2 [(name, some t)] = gateOf gate2Fund [(name, some t)] from rfl,
      gateOf_singleton]
    simp [gate2Fund, hnav]
  · intro name t hnav hhigh
    rw [show gate2 [(name, some t)] = gateOf gate2Fund [(name, some t)] from rfl,
      gateOf_singleton]
    have hcount : 0 < ((parsedNums (t.rows.map (·.nav))).filter
        (fun q => decide (q > 25))).length := by
      obtain ⟨q, hq, hqhigh⟩ := hhigh
      exact List.length_pos_of_mem (List.mem_filter.mpr ⟨hq, by simpa using hqhigh⟩)
    refine ⟨((parsedNums (t.rows.map (·.nav))).filter (fun q => decide (q > 25))).length,
      hcount, ?_⟩
    show _ ∈ (gate2Fund name t).2.2
    simp only [gate2Fund, hnav, if_true]
    rw [if_pos hcount]
    simp

/-- C2 witness: the characterization applied to concrete tables, a
`% to NAV` column summing to 100 (passes) and one summing to 50 (fails). -/
theorem gate2_nav_sanity_witness :
    (gate2 [("FUND", some tableNav100)]).pass = true ∧
    (gate2 [("FUND", some tableNav50)]).pass = false := by
  constructor
  · exact (gate2_nav_sanity_characterization.1 "FUND" tableNav100 rfl
      (by decide)).mpr (by decide)
  · have h := gate2_nav_sanity_characterization.1 "FUND" tableNav50 rfl (by decide)
    cases hp : (gate2 [("FUND", some tableNav50)]).pass
    · rfl
    · exact absurd (h.mp hp) (by decide)

/-- C9 counterexample: a non-null unparseable market-value cell does not
degrade to null in the generic extractor's canonical output — `fillna(0)`
substitutes the non-null default 0 (while `utils.parse_numeric` itself does
return null). -/
theorem unparseable_cell_becomes_zero :
    parse_numeric (some "N.A.") = none ∧
    toNumeric (some (.inr "N.A.")) = none ∧
    extractNumericOutput [some (.inr "N.A.")] = [(0 : ℚ)] := by decide

/-- C9 amended: parsing never raises (every parser is total into `Option`):
`utils.parse_numeric` handles separators and accounting negatives and
degrades unparseable text to null, but the generic extractor's canonical
numeric columns substitute 0 for any null-or-unparseable cell (`fillna(0)`),
and parsed values pass through unchanged. -/
theorem parse_or_default_behaviour :
    parse_numeric none = none ∧
    parse_numeric (some "1,234.5") = some (2469 / 2) ∧
    parse_numeric (some "(123)") = some (-123) ∧
    parse_numeric (some "abc") = none ∧
    (∀ (cells : List NumCell) i, i < cells.length →
      toNumeric (cells.getD i none) = none →
      (extractNumericOutput cells).getD i 1 = 0) ∧
    (∀ (cells : List NumCell) i q, toNumeric (cells.getD i none) = some q →
      (extractNumericOutput cells).getD i 0 = q) := by
  refine ⟨rfl, by decide, by decide, by decide, ?_, ?_⟩
  · intro cells i hi h
    simp only [extractNumericOutput, List.getD_eq_getElem?_getD, List.getElem?_map]
    cases hc : cells[i]? with
    | none =>
        exact absurd (List.getElem?_eq_none_iff.mp hc) (by omega)
    | some c =>
        have hcd : cells.getD i none = c := by
          simp [List.getD_eq_getElem?_getD, hc]
        rw [hcd] at h
        simp [h]
  · intro cells i q h
    have hlt : i < cells.length := by
      by_contra hge
      have : cells[i]? = none := List.getElem?_eq_none_iff.mpr (by omega)
      rw [List.getD_eq_getElem?_getD, this] at h
      simp [toNumeric] at h
    simp only [extractNumericOutput, List.getD_eq_getElem?_getD, List.getElem?_map]
    cases hc : cells[i]? with
    | none => exact absurd (List.getElem?_eq_none_iff.mp hc) (by omega)
    | some c =>
        have hcd : cells.getD i none = c := by
          simp [List.getD_eq_getElem?_getD, hc]
        rw [hcd] at h
        simp [h]

/-- C9 witness: the fill-with-zero clause applied at a concrete column. -/
theorem parse_or_default_witness :
    (extractNumericOutput [some (.inr "oops")]).getD 0 1 = 0 :=
  parse_or_default_behaviour.2.2.2.2.1 [some (.inr "oops")] 0 (by decide) (by decide)

/-- Scaling a column commutes with taking the three-value sample. -/
theorem sampleHead3_map_scale (col : List (Option ℚ)) (c : ℚ) :
    sampleHead3 (col.map (Option.map (· * c))) = (sampleHead3 col).map (· * c) := by
  have h : ∀ (l : List (Option ℚ)),
      (l.map (Option.map (· * c))).filterMap id = (l.filterMap id).map (· * c) := by
    intro l
    induction l with
    | nil => rfl
    | cons x rest ih => cases x <;> simp [ih]
  simp only [sampleHead3, h, List.map_take]

/-- `listMax` commutes with scaling by a nonnegative factor. -/
theorem listMax_map_scale (l : List ℚ) (c : ℚ) (hc : 0 ≤ c) :
    listMax (l.map (· * c)) = (listMax l).map (· * c) := by
  induction l with
  | nil => rfl
  | cons x rest ih =>
      simp only [List.map_cons, listMax, ih]
      cases listMax rest with
      | none => rfl
      | some m =>
          simp only [Option.map_some']
          rw [max_mul_of_nonneg x m hc]

/-- C7 counterexample: the ABSLF correction inspects only the first three
non-null values, not the column maximum: this column's maximum is 2 (`≥ 1`,
so by the claim no correction should occur), yet the extractor multiplies
the whole column by 100 because the first three values are 0.5. -/
theorem rescale_not_column_max_counterexample :
    listMax ((toNumericCol colSmallHead).filterMap id) = some 2 ∧
    ¬ ((2 : ℚ) < 1) ∧
    abslfColumnValues colSmallHead = [some 50, some 50, some 50, some 200] ∧
    abslfColumnValues colSmallHead ≠ toNumericCol colSmallHead := by decide

/-- C7 amended: the ABSLF extractor multiplies a column by 100 exactly when
the maximum of its **first three** non-null values is `< 1` (the ICICI NAV
correction uses `≤ 1`, and the ICICI yield column is never rescaled);
re-applying a correction step is a no-op once the corrected first-three
maximum has crossed the threshold, in particular whenever the original
first-three maximum was at least 1/100 (ABSLF) resp. above 1/100 (ICICI). -/
theorem rescale_first_three_characterization :
    (∀ col m, listMax (sampleHead3 col) = some m →
      (m < 1 → abslfRescale col = col.map (Option.map (· * 100))) ∧
      (¬ m < 1 → abslfRescale col = col)) ∧
    (∀ col, listMax (sampleHead3 col) = none → abslfRescale col = col) ∧
    (∀ col m, listMax (sampleHead3 col) = some m →
      (m ≤ 1 → iciciRescale col = col.map (Option.map (· * 100))) ∧
      (¬ m ≤ 1 → iciciRescale col = col)) ∧
    (∀ cells, iciciYieldValues cells = toNumericCol cells) ∧
    (∀ col m, listMax (sampleHead3 col) = some m → 1 / 100 ≤ m →
      abslfRescale (abslfRescale col) = abslfRescale col) ∧
    (∀ col m, listMax (sampleHead3 col) = some m → 1 / 100 < m →
      iciciRescale (iciciRescale col) = iciciRescale col) := by
  have habslf : ∀ col m, listMax (sampleHead3 col) = some m →
      (m < 1 → abslfRescale col = col.map (Option.map (· * 100))) ∧
      (¬ m < 1 → abslfRescale col = col) := by
    intro col m hm
    constructor
    · intro hlt
      simp [abslfRescale, hm, hlt]
    · intro hge
      simp [abslfRescale, hm, hge]
  have hicici : ∀ col m, listMax (sampleHead3 col) = some m →
      (m ≤ 1 → iciciRescale col = col.map (Option.map (· * 100))) ∧
      (¬ m ≤ 1 → iciciRescale col = col) := by
    intro col m hm
    constructor
    · intro hle
      simp [iciciRescale, hm, hle]
    · intro hgt
      simp [iciciRescale, hm, hgt]
  refine ⟨habslf, ?_, hicici, fun _ => rfl, ?_, ?_⟩
  · intro col hm
    simp [abslfRescale, hm]
  · intro col m hm hbig
    by_cases hlt : m < 1
    · have h1 : abslfRescale col = col.map (Option.map (· * 100)) := (habslf col m hm).1 hlt
      have hscaled : listMax (sampleHead3 (col.map (Option.map (· * 100)))) =
          some (m * 100) := by
        rw [sampleHead3_map_scale, listMax_map_scale _ _ (by norm_num : (0:ℚ) ≤ 100), hm]
        rfl
      rw [h1]
      exact (habslf _ (m * 100) hscaled).2 (by intro habs; nlinarith)
    · have h1 : abslfRescale col = col := (habslf col m hm).2 hlt
      rw [h1]
      exact h1
  · intro col m hm hbig
    by_cases hle : m ≤ 1
    · have h1 : iciciRescale col = col.map (Option.map (· * 100)) := (hicici col m hm).1 hle
      have hscaled : listMax (sampleHead3 (col.map (Option.map (· * 100)))) =
          some (m * 100) := by
        rw [sampleHead3_map_scale, listMax_map_scale _ _ (by norm_num : (0:ℚ) ≤ 100), hm]
        rfl
      rw [h1]
      exact (hicici _ (m * 100) hscaled).2 (by intro habs; nlinarith)
    · have h1 : iciciRescale col = col := (hicici col m hm).2 hle
      rw [h1]
      exact h1

/-- C7 witness: the spec's 0.091-maximum fraction column is multiplied by
100 exactly once, and re-applying the correction step is a no-op. -/
theorem rescale_first_three_witness :
    abslfColumnValues col091 = [some (91 / 10), none, some 5] ∧
    abslfRescale (abslfRescale (toNumericCol col091)) =
      abslfRescale (toNumericCol col091) := by
  constructor
  · decide
  · exact rescale_first_three_characterization.2.2.2.2.1 (toNumericCol col091)
      (91 / 1000) (by decide) (by decide)

/-- C3 counterexample: in `tableDup6` the ISIN `I6` appears twice with the
identical market value — by the claim Gate 3 must record a critical failure
and fail — yet the gate passes with no criticals, because `I6` falls outside
the five duplicates the gate examines (`duplicates.head(5)`). -/
theorem gate3_head5_counterexample :
    (∃ p ∈ isinValueCounts tableDup6, p.2 > 1 ∧
      (uniqueCells ((tableDup6.rows.filter
        (fun r => r.isin = some p.1)).map (·.mval))).length = 1) ∧
    (gate3 [("FUND", some tableDup6)] none).pass = true ∧
    (gate3 [("FUND", some tableDup6)] none).criticals = [] := by decide

/-- C3 amended: among the first five duplicated ISINs examined by Gate 3, a
same-value duplicate records a critical failure and fails the gate, while a
different-value duplicate only records a warning; when every examined
duplicate has differing values the gate passes; and the consolidated
(cross-source) input never influences the gate's result. -/
theorem gate3_duplicate_isin_characterization :
    (∀ name t cons p, t.hasIsin = true → p ∈ gate3Examined t →
      ((uniqueCells ((t.rows.filter (fun r => r.isin = some p.1)).map (·.mval))).length = 1 →
        (gate3 [(name, some t)] cons).pass = false ∧
        Issue.dupIsinSameValue name p.1 p.2 ∈ (gate3 [(name, some t)] cons).criticals) ∧
      (1 < (uniqueCells ((t.rows.filter (fun r => r.isin = some p.1)).map (·.mval))).length →
        Issue.dupIsinDiffValues name p.1 p.2 ∈ (gate3 [(name, some t)] cons).warns)) ∧
    (∀ name t cons, t.hasIsin = true →
      (∀ p ∈ gate3Examined t,
        1 < (uniqueCells ((t.rows.filter (fun r => r.isin = some p.1)).map (·.mval))).length) →
      (gate3 [(name, some t)] cons).pass = true ∧
      (gate3 [(name, some t)] cons).criticals = []) ∧
    (∀ files c1 c2, gate3 files c1 = gate3 files c2) := by
  refine ⟨?_, ?_, fun files c1 c2 => rfl⟩
  · intro name t cons p hIsin hp
    rw [show gate3 [(name, some t)] cons = gateOf gate3Fund [(name, some t)] from rfl,
      gateOf_singleton]
    constructor
    · intro hlen
      have hdup : gate3Dup name t p =
          (false, [Issue.dupIsinSameValue name p.1 p.2], ([] : List Issue)) := by
        simp only [gate3Dup]
        rw [if_neg (by omega)]
      have hpass : (gate3Fund name t).1 = false := by
        simp only [gate3Fund, hIsin, if_true]
        rw [List.all_eq_false]
        exact ⟨gate3Dup name t p, List.mem_map_of_mem _ hp, by rw [hdup]; simp⟩
      refine ⟨hpass, ?_⟩
      show _ ∈ (if (gate3Fund name t).1 then [] else (gate3Fund name t).2.1)
      rw [hpass, if_neg (by simp)]
      show _ ∈ (gate3Fund name t).2.1
      simp only [gate3Fund, hIsin, if_true]
      refine List.mem_flatten.mpr ⟨[Issue.dupIsinSameValue name p.1 p.2], ?_, by simp⟩
      refine List.mem_map.mpr ⟨gate3Dup name t p, List.mem_map_of_mem _ hp, ?_⟩
      rw [hdup]
    · intro hlen
      have hdup : gate3Dup name t p =
          (true, ([] : List Issue), [Issue.dupIsinDiffValues name p.1 p.2]) := by
        simp only [gate3Dup]
        rw [if_pos (by omega)]
      show _ ∈ (gate3Fund name t).2.2
      simp only [gate3Fund, hIsin, if_true]
      refine List.mem_flatten.mpr ⟨[Issue.dupIsinDiffValues name p.1 p.2], ?_, by simp⟩
      refine List.mem_map.mpr ⟨gate3Dup name t p, List.mem_map_of_mem _ hp, ?_⟩
      rw [hdup]
  · intro name t cons hIsin hall
    rw [show gate3 [(name, some t)] cons = gateOf gate3Fund [(name, some t)] from rfl,
      gateOf_singleton]
    have hpass : (gate3Fund name t).1 = true := by
      simp only [gate3Fund, hIsin, if_true]
      rw [List.all_eq_true]
      rintro c hc
      obtain ⟨p, hp, rfl⟩ := List.mem_map.mp hc
      simp only [gate3Dup]
      rw [if_pos (by exact Nat.lt_of_lt_of_le (hall p hp) (le_refl _))]
    refine ⟨hpass, ?_⟩
    show (if (gate3Fund name t).1 then [] else (gate3Fund name t).2.1) = []
    rw [hpass, if_pos rfl]

/-- C3 witness: the characterization applied to a same-value duplicate (gate
fails with a critical) and to a different-value duplicate (warning only,
gate passes). -/
theorem gate3_duplicate_isin_witness :
    (gate3 [("FUND", some tableDupSame)] none).pass = false ∧
    Issue.dupIsinSameValue "FUND" "I1" 2 ∈
      (gate3 [("FUND", some tableDupSame)] none).criticals ∧
    Issue.dupIsinDiffValues "FUND" "I1" 2 ∈
      (gate3 [("FUND", some tableDupDiff)] none).warns ∧
    (gate3 [("FUND", some tableDupDiff)] none).pass = true := by
  have h1 := (gate3_duplicate_isin_characterization.1 "FUND" tableDupSame none
    ("I1", 2) rfl (by decide)).1 (by decide)
  have h2 := (gate3_duplicate_isin_characterization.1 "FUND" tableDupDiff none
    ("I1", 2) rfl (by decide)).2 (by decide)
  have h3 := gate3_duplicate_isin_characterization.2.1 "FUND" tableDupDiff none rfl
    (by decide)
  exact ⟨h1.1, h1.2, h2, h3.1⟩

/-! ### Lemmas about the stable rank sort used by `normalize_rating` -/

theorem getLastD_default_irrel {α : Type} (l : List α) (h : l ≠ []) (d1 d2 : α) :
    l.getLastD d1 = l.getLastD d2 := by
  rw [List.getLastD_eq_getLast?, List.getLastD_eq_getLast?]
  cases hl : l.getLast? with
  | none => exact absurd (List.getLast?_eq_none_iff.mp hl) h
  | some a => rfl

theorem insertByRank_ne_nil (ord : List String) (x : String) (s : List String) :
    insertByRank ord x s ≠ [] := by
  cases s with
  | nil => simp [insertByRank]
  | cons y ys =>
      simp only [insertByRank]
      split <;> simp

theorem mem_insertByRank (ord : List String) (x a : String) (s : List String) :
    a ∈ insertByRank ord x s ↔ a = x ∨ a ∈ s := by
  induction s with
  | nil => simp [insertByRank]
  | cons y ys ih =>
      simp only [insertByRank]
      split
      · simp [or_comm, or_assoc, or_left_comm]
      · simp only [List.mem_cons, ih]
        tauto

theorem mem_sortByRank (ord : List String) (a : String) (l : List String) :
    a ∈ sortByRank ord l ↔ a ∈ l := by
  induction l with
  | nil => simp [sortByRank]
  | cons x xs ih =>
      simp only [sortByRank, List.foldr_cons]
      rw [mem_insertByRank]
      simp only [List.mem_cons]
      rw [show List.foldr (insertByRank ord) [] xs = sortByRank ord xs from rfl, ih]

theorem insertByRank_append_of_lt (ord : List String) (x : String) (s : List String)
    (h : ∀ y ∈ s, gradeRank ord y < gradeRank ord x) :
    insertByRank ord x s = s ++ [x] := by
  induction s with
  | nil => rfl
  | cons y ys ih =>
      simp only [insertByRank]
      rw [if_neg (by simpa using Nat.not_le_of_lt (h y (by simp)))]
      rw [ih (fun z hz => h z (by simp [hz]))]
      rfl

theorem getLastD_append_single {α : Type} (l : List α) (x d : α) :
    (l ++ [x]).getLastD d = x := by
  rw [List.getLastD_eq_getLast?, List.getLast?_concat]
  rfl

theorem insertByRank_getLastD_of_le (ord : List String) (x : String) (s : List String)
    (d : String) (h : ∃ y ∈ s, gradeRank ord x ≤ gradeRank ord y) :
    (insertByRank ord x s).getLastD d = s.getLastD d := by
  induction s generalizing d with
  | nil => simp at h
  | cons y ys ih =>
      simp only [insertByRank]
      by_cases hxy : gradeRank ord x ≤ gradeRank ord y
      · rw [if_pos hxy]
        simp only [List.getLastD_cons]
      · rw [if_neg hxy]
        simp only [List.getLastD_cons]
        obtain ⟨z, hz, hle⟩ := h
        rcases List.mem_cons.mp hz with rfl | hzys
        · exact absurd hle hxy
        · exact ih y ⟨z, hzys, hle⟩

/-- The last element of the stable ascending rank sort is a member of
maximal rank (Python's `sorted(grades, key=rank)[-1]`). -/
theorem sortByRank_getLastD_worst (ord : List String) (l : List String) (h : l ≠ []) :
    ∃ w, (sortByRank ord l).getLastD "" = w ∧ w ∈ l ∧
      ∀ g ∈ l, gradeRank ord g ≤ gradeRank ord w := by
  induction l with
  | nil => exact absurd rfl h
  | cons x xs ih =>
      by_cases hxs : xs = []
      · subst hxs
        exact ⟨x, by simp [sortByRank, insertByRank], by simp, by simp⟩
      · obtain ⟨w', hw'last, hw'mem, hw'max⟩ := ih hxs
        have hsort : sortByRank ord (x :: xs) = insertByRank ord x (sortByRank ord xs) := rfl
        by_cases hc : gradeRank ord x ≤ gradeRank ord w'
        · refine ⟨w', ?_, by simp [hw'mem], ?_⟩
          · rw [hsort, insertByRank_getLastD_of_le ord x _ ""
              ⟨w', (mem_sortByRank ord w' xs).mpr hw'mem, hc⟩]
            exact hw'last
          · intro g hg
            rcases List.mem_cons.mp hg with rfl | hgxs
            · exact hc
            · exact hw'max g hgxs
        · have hlt : ∀ y ∈ sortByRank ord xs, gradeRank ord y < gradeRank ord x := by
            intro y hy
            have hymem := (mem_sortByRank ord y xs).mp hy
            exact Nat.lt_of_le_of_lt (hw'max y hymem) (Nat.lt_of_not_le hc)
          refine ⟨x, ?_, by simp, ?_⟩
          · rw [hsort, insertByRank_append_of_lt ord x _ hlt, getLastD_append_single]
          · intro g hg
            rcases List.mem_cons.mp hg with rfl | hgxs
            · exact le_refl _
            · exact Nat.le_of_lt (Nat.lt_of_le_of_lt (hw'max g hgxs) (Nat.lt_of_not_le hc))

/-- C6 counterexample: `"AAA AA"` is a split rating with two grade tokens
whose lowest-ranked (worst) grade is `AA`, yet `normalize_rating` returns
`AAA`: the single-grade regex fires on the leftmost token before the
split-rating resolution is ever reached. -/
theorem split_rating_counterexample :
    (splitSeps (strLower (cleanText "AAA AA")).data).map
      (fun p => lookupD ratingCfg.map (strLower p) (strUpper p)) = ["AAA", "AA"] ∧
    selectWorst ratingCfg.order (["AAA", "AA"]) = some "AA" ∧
    normalize_rating "AAA AA" "x" ratingCfg = "AAA" ∧
    ("AAA" : String) ≠ "AA" := by decide

/-- C6 amended: the worst-grade resolution of a split rating only applies
when the leftmost-match grade regex finds no token at all; in that case
`normalize_rating` returns a mapped token of maximal rank index (the
lowest-ranked, i.e. worst, grade; ties resolve to the last). Whenever the
regex does find a token, its first match is returned instead, regardless of
worse grades elsewhere in the string. -/
theorem split_rating_worst_characterization :
    (∀ (cfg : RatingCfg) (ratingRaw name : String),
      cfg.sovereignTokens.any
        (fun tok => strContains (strLower (cleanText name)) tok) = false →
      ∀ key, findGradeAlt (strLower (cleanText ratingRaw)).data = some key →
      normalize_rating ratingRaw name cfg = lookupD cfg.map key (strUpper key)) ∧
    (∀ (cfg : RatingCfg) (ratingRaw name : String),
      cfg.sovereignTokens.any
        (fun tok => strContains (strLower (cleanText name)) tok) = false →
      findGradeAlt (strLower (cleanText ratingRaw)).data = none →
      splitSeps (strLower (cleanText ratingRaw)).data ≠ [] →
      ∃ w, normalize_rating ratingRaw name cfg = w ∧
        w ∈ (splitSeps (strLower (cleanText ratingRaw)).data).map
          (fun p => lookupD cfg.map (strLower p) (strUpper p)) ∧
        ∀ g ∈ (splitSeps (strLower (cleanText ratingRaw)).data).map
          (fun p => lookupD cfg.map (strLower p) (strUpper p)),
          gradeRank cfg.order g ≤ gradeRank cfg.order w) := by
  constructor
  · intro cfg ratingRaw name hsov key hfind
    simp only [normalize_rating, hsov, Bool.false_eq_true, if_false, hfind]
  · intro cfg ratingRaw name hsov hfind hparts
    have hgrades : (splitSeps (strLower (cleanText ratingRaw)).data).map
        (fun p => lookupD cfg.map (strLower p) (strUpper p)) ≠ [] := by
      intro habs
      exact hparts (List.map_eq_nil_iff.mp habs)
    obtain ⟨w, hwlast, hwmem, hwmax⟩ :=
      sortByRank_getLastD_worst cfg.order
        ((splitSeps (strLower (cleanText ratingRaw)).data).map
          (fun p => lookupD cfg.map (strLower p) (strUpper p))) hgrades
    refine ⟨w, ?_, hwmem, hwmax⟩
    simp only [normalize_rating, hsov, Bool.false_eq_true, if_false, hfind]
    cases hg : (splitSeps (strLower (cleanText ratingRaw)).data).map
        (fun p => lookupD cfg.map (strLower p) (strUpper p)) with
    | nil => exact absurd hg hgrades
    | cons g gs =>
        rw [hg] at hwlast
        exact hwlast

/-- C6 witness: the worst-grade clause applied to the split rating
`"BB+ B"`, which the grade regex does not match; the result is the worst of
`BB+` and `B`. -/
theorem split_rating_worst_witness :
    ∃ w, normalize_rating "BB+ B" "x" ratingCfg = w ∧
      w ∈ (splitSeps (strLower (cleanText "BB+ B")).data).map
        (fun p => lookupD ratingCfg.map (strLower p) (strUpper p)) ∧
      ∀ g ∈ (splitSeps (strLower (cleanText "BB+ B")).data).map
        (fun p => lookupD ratingCfg.map (strLower p) (strUpper p)),
        gradeRank ratingCfg.order g ≤ gradeRank ratingCfg.order w :=
  split_rating_worst_characterization.2 ratingCfg "BB+ B" "x" (by decide)
    (by decide) (by decide)

/-- C1 witness: the verdict decomposition instantiated at a concrete run. -/
theorem validator_verdict_witness : (gate8 sixNone).pass = true :=
  (validator_verdict_is_and_of_gates 0 sixNone none).2.2.2

/-- C10 witness: the skip equations instantiated at a concrete file list. -/
theorem missing_fund_files_witness :
    gate2 [("A", some tableNav100), ("B", (none : Option Table))] =
      gate2 [("A", some tableNav100)] :=
  missing_fund_files_are_skipped.2.1 [("A", some tableNav100)] [] "B"

/-- C4 witness: the characterization instantiated at a concrete ISIN. -/
theorem is_valid_isin_witness : is_valid_isin (some "INE261F08EK5") = true :=
  (is_valid_isin_characterization.1 "INE261F08EK5").mpr (by decide)

/-- C5 witness: the sovereign-name clause instantiated at a concrete raw
rating. -/
theorem rating_standardization_witness :
    normalize_rating "CRISIL AAA" "7.26% GOI 2033" ratingCfg = "SOVEREIGN" :=
  rating_standardization_scenarios.2.2.2.1 "CRISIL AAA"

end MF
